import Mathlib

/-!
Shallow embedding of the VSA orchestration core of
`src/measurements/vsa.py` (class `VSA`): the OPC-synchronized command
primitive `write_command_opc`, the soft-failing numeric query
`queryFloat`, the servo helpers (`power_servo`, `K18_power_servo`,
`_resolve_servo_flags`, `_run_servos`) and the four measurement phase
functions (`measure_evm`, `perform_single_dpd`, `perform_iterative_dpd`,
`perform_gmp_dpd`).

Modelling conventions:
* The instrument session (`self.instr`) is an external collaborator with
  `write(cmd)` and `query(cmd) -> str`.  It is modelled by an `Env` whose
  reply may depend on the interaction history, so that stateful test
  doubles (e.g. a status register that sets its bit only after N polls)
  are expressible.
* Computations are run in a monad `M` that threads the trace of issued
  instrument operations and models Python exceptions with
  `Except String`.  A raised exception carries the trace of operations
  issued up to (and including) the failing one.
* Python `float` values are modelled as exact rationals (`ℚ`); `float`
  NaN is the extra constructor `PFloat.nan`.  Rationals are always built
  with `Rat.divInt` over integer arithmetic.  The textual rendering of
  numbers interpolated into SCPI command strings uses `toString`, an
  abstraction of Python string formatting; no claim depends on the
  payload text of those commands.
* Wall-clock readings (`time()` differences) are not computable from the
  code; elapsed-time results produced by the two servos are supplied by
  the environment (`Env.regElapsed`, `Env.k18Elapsed`).  Elapsed times
  that the code initialises to `0.0` and never overwrites are modelled
  as the literal `0`.
* The unbounded `while` poll loop of `write_command_opc` is given a fuel
  parameter; exhausting the fuel produces a distinguished error that
  models "still blocked after `fuel` polls".
* `time.sleep(0.2)` is recorded as a trace event `Ev.sleepMs 200`.
-/

/-- Python float value: either NaN (`float('nan')`) or an exact rational. -/
inductive PFloat where
  | nan
  | val (q : ℚ)
deriving DecidableEq, Repr

/-- Events observable on the instrument session / external regulator. -/
inductive Ev where
  | write (c : String)
  | query (c : String)
  | sleepMs (n : Nat)
  | regulateCall
deriving DecidableEq, Repr

instance {ε α : Type} [DecidableEq ε] [DecidableEq α] :
    DecidableEq (Except ε α) := fun x y =>
  match x, y with
  | .ok a, .ok b =>
      match decEq a b with
      | isTrue h => isTrue (by rw [h])
      | isFalse h => isFalse (by intro hc; cases hc; exact h rfl)
  | .error a, .error b =>
      match decEq a b with
      | isTrue h => isTrue (by rw [h])
      | isFalse h => isFalse (by intro hc; cases hc; exact h rfl)
  | .ok _, .error _ => isFalse (by intro hc; cases hc)
  | .error _, .ok _ => isFalse (by intro hc; cases hc)

/-- The instrument session plus external collaborators, as seen by the
orchestrator.  `reply`/`writeRes` may inspect the trace so far, which lets a
test double behave statefully (e.g. count `*ESR?` polls).  `regulate` is the
result of the external power-servo collaborator `servo_power`
(iterations, settle time), `regElapsed` the wall-clock duration the
orchestrator would measure around that call, `k18Elapsed` the wall-clock
duration measured around the K18 servo start command. -/
structure Env where
  reply : List Ev → String → Except String String
  writeRes : List Ev → String → Except String Unit
  regulate : Except String (Nat × ℚ)
  regElapsed : ℚ
  k18Elapsed : ℚ

/-- Trace-and-exception monad for instrument interactions. -/
def M (α : Type) : Type := Env → List Ev → Except String α × List Ev

/-- Monadic return. -/
def mPure {α : Type} (a : α) : M α := fun _ tr => (Except.ok a, tr)

/-- Monadic bind: stop at the first raised exception, keeping the trace. -/
def mBind {α β : Type} (x : M α) (f : α → M β) : M β := fun env tr =>
  match x env tr with
  | (Except.ok a, tr2) => f a env tr2
  | (Except.error e, tr2) => (Except.error e, tr2)

/-- Raise a Python exception. -/
def mThrow {α : Type} (msg : String) : M α := fun _ tr => (Except.error msg, tr)

/-- `self.instr.query(c)`: the command is issued (recorded) and the reply
returned; a transport failure raises. -/
def instrQuery (c : String) : M String := fun env tr =>
  match env.reply tr c with
  | Except.ok s => (Except.ok s, tr ++ [Ev.query c])
  | Except.error e => (Except.error e, tr ++ [Ev.query c])

/-- `self.instr.write(c)`: fire-and-forget write; a transport failure raises. -/
def instrWrite (c : String) : M Unit := fun env tr =>
  match env.writeRes tr c with
  | Except.ok _ => (Except.ok (), tr ++ [Ev.write c])
  | Except.error e => (Except.error e, tr ++ [Ev.write c])

/-- `sleep(0.2)` between OPC polls, recorded in milliseconds. -/
def sleep200 : M Unit := fun _ tr => (Except.ok (), tr ++ [Ev.sleepMs 200])

/-!  Numeric parsing, modelling Python `float(...)` and `int(...)` on the
single-line instrument replies.  Simplifications: only the decimal forms
(optional sign, digits with optional decimal point, optional exponent) are
accepted; the special literals `inf`/`nan`/underscored digits are not
modelled, and values are exact rationals rather than IEEE doubles. -/

/-- Whitespace characters stripped by Python numeric conversions. -/
def isWs (c : Char) : Bool := c = ' ' || c = '\t' || c = '\n' || c = '\r'

/-- Strip leading and trailing whitespace from a character list. -/
def trimWs (cs : List Char) : List Char :=
  ((cs.dropWhile isWs).reverse.dropWhile isWs).reverse

/-- Split a character list on a separator predicate (keeping empty parts,
like Python `str.split(sep)`). -/
def splitOnP (p : Char → Bool) : List Char → List (List Char)
  | [] => [[]]
  | c :: rest =>
      let r := splitOnP p rest
      if p c then [] :: r
      else
        match r with
        | h :: t => (c :: h) :: t
        | [] => [[c]]

/-- Value of a nonempty all-digit character list. -/
def digitsVal? (cs : List Char) : Option Nat :=
  if cs.isEmpty then none
  else cs.foldlM (fun acc c =>
    if c.isDigit then some (acc * 10 + (c.toNat - 48)) else none) 0

/-- Leading sign of a numeric literal. -/
def signSplit (cs : List Char) : Bool × List Char :=
  match cs with
  | '-' :: r => (true, r)
  | '+' :: r => (false, r)
  | _ => (false, cs)

/-- Signed decimal integer (used for exponents and for Python `int(...)`). -/
def intVal? (cs : List Char) : Option Int :=
  match signSplit cs with
  | (neg, r) => (digitsVal? r).map (fun n => if neg then -(n : Int) else (n : Int))

/-- Unsigned mantissa `dd[.dd]` as numerator and power-of-ten scale. -/
def mantissaVal? (cs : List Char) : Option (Nat × Nat) :=
  match splitOnP (fun c => c = '.') cs with
  | [ip] => (digitsVal? ip).map (fun i => (i, 0))
  | [ip, fp] =>
      if ip.isEmpty then (digitsVal? fp).map (fun f => (f, fp.length))
      else if fp.isEmpty then (digitsVal? ip).map (fun i => (i, 0))
      else
        match digitsVal? ip, digitsVal? fp with
        | some i, some f => some (i * 10 ^ fp.length + f, fp.length)
        | _, _ => none
  | _ => none

/-- Assemble a rational from sign, mantissa and exponent. -/
def assembleQ (neg : Bool) (mk : Nat × Nat) (e : Int) : ℚ :=
  match mk with
  | (m, k) =>
      let n : Int := if neg then -(m : Int) else (m : Int)
      if 0 ≤ e then Rat.divInt (n * 10 ^ e.toNat) (10 ^ k)
      else Rat.divInt n ((10 : Int) ^ k * 10 ^ (-e).toNat)

/-- Python `float(...)` on a character list: `none` models `ValueError`. -/
def pyFloatChars? (cs : List Char) : Option ℚ :=
  match signSplit (trimWs cs) with
  | (neg, body) =>
      match splitOnP (fun c => c = 'e' || c = 'E') body with
      | [m] => (mantissaVal? m).map (fun mk => assembleQ neg mk 0)
      | [m, ex] =>
          match mantissaVal? m, intVal? ex with
          | some mk, some e => some (assembleQ neg mk e)
          | _, _ => none
      | _ => none

/-- Python `float(s)` on a string. -/
def pyFloat? (s : String) : Option ℚ := pyFloatChars? s.data

/-- Python `int(s)` on a string (sign and digits only). -/
def pyInt? (s : String) : Option Int := intVal? (trimWs s.data)

/-- The ACLR reply parse of every phase:
`chan, lower, upper = [float(x) for x in reply.split(',')[:3]]`.
`none` models the `ValueError` raised either by a non-numeric field or by
unpacking fewer than three values. -/
def parseAclr3 (s : String) : Option (ℚ × ℚ × ℚ) :=
  match (splitOnP (fun c => c = ',') s.data).take 3 with
  | [a, b, c] =>
      match pyFloatChars? a, pyFloatChars? b, pyFloatChars? c with
      | some x, some y, some z => some (x, y, z)
      | _, _, _ => none
  | _ => none

/-- `VSA.queryFloat` (vsa.py lines 173-179): send the query and convert the
reply with `float(...)`; ANY exception — transport failure or parse failure —
is caught and `float('nan')` returned. -/
def queryFloat (c : String) : M PFloat := fun env tr =>
  (Except.ok (match env.reply tr c with
    | Except.ok s =>
        match pyFloat? s with
        | some q => PFloat.val q
        | none => PFloat.nan
    | Except.error _ => PFloat.nan), tr ++ [Ev.query c])

/-- Error message used when the poll-loop fuel runs out; in the Python code
the loop has no bound, so this marks a run that is still blocked after the
given number of polls. -/
def opcFuelMsg : String := "OPC poll loop still blocked (models unbounded wait)"

/-- Error message for `int()` failing on the `*ESR?` reply. -/
def esrParseMsg : String := "ValueError: int() on ESR reply"

/-- The poll loop of `write_command_opc` (vsa.py lines 190-191):
`while (int(self.instr.query('*ESR?')) & 1) != 1: sleep(0.2)`,
with explicit fuel standing for the number of polls still allowed. -/
def opcPollLoop : Nat → M Unit
  | 0 => mThrow opcFuelMsg
  | fuel + 1 =>
      mBind (instrQuery "*ESR?") (fun s =>
        match pyInt? s with
        | none => mThrow esrParseMsg
        | some n =>
            if n % 2 = 1 then mPure ()
            else mBind sleep200 (fun _ => opcPollLoop fuel))

/-- `VSA.write_command_opc` (vsa.py lines 181-195): arm `*ESE 1` and
`*SRE 32`, issue the command with `;*OPC` appended as a write, then poll
`*ESR?` until bit 0 is set, sleeping 0.2 s between polls. -/
def write_command_opc (fuel : Nat) (command : String) : M Unit :=
  mBind (instrWrite "*ESE 1") (fun _ =>
  mBind (instrWrite "*SRE 32") (fun _ =>
  mBind (instrWrite (command ++ ";*OPC")) (fun _ =>
  opcPollLoop fuel)))

/-- Wall-clock reading for the K18 servo (`round(time() - start_time, 3)`). -/
def getK18Elapsed : M ℚ := fun env tr => (Except.ok env.k18Elapsed, tr)

/-- `VSA.power_servo` (vsa.py lines 200-214): delegate to the external
NRX regulator `power_servo.servo_power(freq_ghz, target, expected_gain)`
and time the call.  Returns `(servo_iterations, servo_time, settle_time)`;
a failure inside the regulator propagates. -/
def power_servo : M (Nat × ℚ × ℚ) := fun env tr =>
  match env.regulate with
  | Except.ok (iters, settle) =>
      (Except.ok (iters, env.regElapsed, settle), tr ++ [Ev.regulateCall])
  | Except.error e => (Except.error e, tr ++ [Ev.regulateCall])

/-- Script actions: the three ways a phase issues an instrument command. -/
inductive Act where
  | q (c : String)
  | w (c : String)
  | opc (c : String)
deriving DecidableEq, Repr

/-- Run one script action. -/
def runAct (fuel : Nat) : Act → M Unit
  | .q c => mBind (instrQuery c) (fun _ => mPure ())
  | .w c => instrWrite c
  | .opc c => write_command_opc fuel c

/-- Run a list of script actions in order. -/
def runActs (fuel : Nat) : List Act → M Unit
  | [] => mPure ()
  | a :: as => mBind (runAct fuel a) (fun _ => runActs fuel as)

/-- The fixed command sequence of `VSA.K18_power_servo`
(vsa.py lines 216-245), all issued as `query(...; *OPC?)`. -/
def k18Acts (target : ℚ) (maxIter : Nat) : List Act :=
  [ .q "INST:SEL \"Amplifier\"; *OPC?",
    .q "CONF:GEN:CONN:STAT ON; *OPC?",
    .q "CONF:GEN:CONT:STAT ON; *OPC?",
    .q ":CONF:SETT; *OPC?",
    .q "INIT:CONT OFF; *OPC?",
    .q "INIT:IMM; *OPC?",
    .q ":SENS:PSER:STAT ON; *OPC?",
    .q (":SENS:PSER:TARG:VAL " ++ toString target ++ "; *OPC?"),
    .q (":SENS:PSER:MAX:ITER " ++ toString maxIter ++ "; *OPC?"),
    .q ":SENS:PSER:STAR; *OPC?",
    .q ":INIT:IMM; *OPC?",
    .q ":FETCh:POWer:OUTPut:CURRent:RES?; *OPC?" ]

/-- `VSA.K18_power_servo`: issue the fixed sequence, return elapsed time. -/
def K18_power_servo (target : ℚ) (maxIter : Nat) : M ℚ :=
  mBind (runActs 0 (k18Acts target maxIter)) (fun _ => getK18Elapsed)

/-- Process-wide servo defaults (`USE_POWER_SERVO`, `USE_K18_POWER_SERVO`,
loaded from `test_inputs.json` at module import). -/
structure ServoDefaults where
  usePowerServo : Bool
  useK18PowerServo : Bool
deriving DecidableEq, Repr

/-- `VSA._resolve_servo_flags` (vsa.py lines 251-255): an explicit per-call
argument (`is not None`) overrides the process-wide default. -/
def resolveServoFlag (arg : Option Bool) (dflt : Bool) : Bool :=
  match arg with
  | some b => b
  | none => dflt

/-- `VSA._run_servos` (vsa.py lines 257-270): run the enabled servos,
external first, then K18; disabled servos leave their iteration count and
elapsed time at `0`. -/
def run_servos (hasRegulator : Bool) (target : ℚ) (maxIter : Nat)
    (usePS useK18 : Bool) : M (Nat × ℚ × ℚ) :=
  mBind (if usePS && hasRegulator then
           mBind power_servo (fun r => mPure (r.1, r.2.1))
         else mPure (0, (0 : ℚ))) (fun le =>
  mBind (if useK18 then K18_power_servo target maxIter else mPure (0 : ℚ)) (fun kt =>
  mPure (le.1, le.2, kt)))

/-- The uniform result record of a phase (the non-wall-clock fields of the
11-tuples returned by the phase functions). -/
structure PhaseResult where
  power : PFloat
  evm : PFloat
  chanPow : ℚ
  adjLower : ℚ
  adjUpper : ℚ
  servoLoops : Nat
  extServoTime : ℚ
  k18Time : ℚ
deriving DecidableEq, Repr

/-- The common phase shape shared by all four phase functions of vsa.py:
setup commands, servos, context/measurement-mode commands, the two
`queryFloat` fetches, the switch to ACLR, the ACLR query and parse, and the
teardown commands. -/
structure PhaseScript where
  pre : List Act
  mid : List Act
  powerCmd : String
  evmCmd : String
  preAclr : List Act
  aclrCmd : String
  post : List Act

/-- Error message for the ACLR reply failing to convert/unpack. -/
def aclrParseMsg : String := "ValueError: ACLR reply did not yield three floats"

/-- Run a phase: the shared straight-line control flow of the four phase
functions (each is this runner applied to its command script, with the
commands listed in source order). -/
def runPhase (fuel : Nat) (s : PhaseScript) (hasRegulator : Bool) (target : ℚ)
    (maxIter : Nat) (dflts : ServoDefaults) (psArg k18Arg : Option Bool) :
    M PhaseResult :=
  mBind (runActs fuel s.pre) (fun _ =>
  mBind (run_servos hasRegulator target maxIter
          (resolveServoFlag psArg dflts.usePowerServo)
          (resolveServoFlag k18Arg dflts.useK18PowerServo)) (fun srv =>
  mBind (runActs fuel s.mid) (fun _ =>
  mBind (queryFloat s.powerCmd) (fun p =>
  mBind (queryFloat s.evmCmd) (fun e =>
  mBind (runActs fuel s.preAclr) (fun _ =>
  mBind (instrQuery s.aclrCmd) (fun aclrReply =>
    match parseAclr3 aclrReply with
    | some (cp, al, au) =>
        mBind (runActs fuel s.post) (fun _ =>
          mPure { power := p, evm := e, chanPow := cp, adjLower := al,
                  adjUpper := au, servoLoops := srv.1,
                  extServoTime := srv.2.1, k18Time := srv.2.2 })
    | none => mThrow aclrParseMsg)))))))

/-- Script of `VSA.measure_evm` (vsa.py lines 275-329), commands in source
order: lines 290-291 (pre), servos (296-298), lines 301-302 (mid), the two
fetches (303-304), lines 311-312 (preAclr), line 313 (aclrCmd), line 321
(post: restore EVM mode). -/
def baselineScript : PhaseScript :=
  ⟨[ .q "INIT:CONT OFF; *OPC?",
     .q "INIT:IMM; *OPC?" ],
   [ .q ":INST:SEL \"5G NR\"; *OPC?",
     .q "INIT:IMM; *OPC?" ],
   "FETC:CC1:ISRC:FRAM:SUMM:POW:AVERage?",
   "FETC:CC1:ISRC:FRAM:SUMM:EVM:ALL:AVERage?",
   [ .w "CONF:NR5G:MEAS ACLR",
     .w "INIT:IMM;*WAI" ],
   "CALC:MARK:FUNC:POW:RES? ACP",
   [ .w "CONF:NR5G:MEAS EVM" ]⟩

/-- Script of `VSA.perform_single_dpd` (vsa.py lines 336-416): lines
344-362 (pre), servos (369-372), lines 378-382 (mid), fetches (383-384),
lines 391-392 (preAclr), line 393 (aclrCmd), lines 400-403 (post). -/
def singleDpdScript : PhaseScript :=
  ⟨[ .opc "INST:SEL \"Amplifier\"",
     .q "CONF:GEN:CONN:STAT ON; *OPC?",
     .q "CONF:GEN:CONT:STAT ON; *OPC?",
     .q "CONF:SETT; *OPC?",
     .q ":CONF:REFS:CGW:READ; *OPC?",
     .q "INIT:CONT OFF; *OPC?",
     .q "INIT:IMM; *OPC?",
     .q "CONF:DDPD:STAT OFF; *OPC?",
     .q "CONF:DPD:SHAP:MODE POLY; *OPC?",
     .q ":CONF:DPD:TRAD 10; *OPC?",
     .q "INIT:IMM; *OPC?",
     .q ":CONF:DPD:FILE:GEN; *OPC?",
     .q ":CONF:DPD:UPD; *OPC?",
     .q "CONF:DPD:AMAM:STAT ON; *OPC?",
     .q "CONF:DPD:AMPM:STAT ON; *OPC?",
     .q "INIT:IMM; *OPC?" ],
   [ .q "INST:SEL \"5G NR\"; *OPC?",
     .q "CONF:NR5G:MEAS EVM; *OPC?",
     .q "INIT:IMM; *OPC?",
     .q "INIT:IMM; *OPC?" ],
   "FETC:CC1:ISRC:FRAM:SUMM:POW:AVERage?",
   "FETC:CC1:ISRC:FRAM:SUMM:EVM:ALL:AVERage?",
   [ .q "CONF:NR5G:MEAS ACLR; *OPC?",
     .q "INIT:IMM;*OPC?" ],
   "CALC:MARK:FUNC:POW:RES? ACP",
   [ .opc "INST:SEL \"Amplifier\"",
     .q "CONF:DPD:AMAM:STAT OF; *OPC?",
     .q "CONF:DPD:AMPM:STAT OF; *OPC?",
     .q "INST:SEL \"5G NR\"; *OPC?" ]⟩

/-- Script of `VSA.perform_iterative_dpd` (vsa.py lines 421-492): lines
428-442 (pre, including the caller-supplied DDPD iteration count), servos
(450-453), lines 460-463 (mid), fetches (464-465), lines 472-473 (preAclr),
line 474 (aclrCmd), lines 481-483 (post). -/
def iterativeDpdScript (ddpdIterations : Nat) : PhaseScript :=
  ⟨[ .opc "INST:SEL \"Amplifier\"",
     .q "CONF:GEN:CONN:STAT ON; *OPC?",
     .q "CONF:GEN:CONT:STAT ON; *OPC?",
     .q "CONF:SETT; *OPC?",
     .q ":CONF:REFS:CGW:READ; *OPC?",
     .q "CONF:DDPD:STAT ON; *OPC?",
     .q "CONF:DDPD:TRAD 100; *OPC?",
     .q (":CONF:DDPD:COUN " ++ toString ddpdIterations ++ "; *OPC?"),
     .q ":CONF:DDPD:STAR; *OPC?" ],
   [ .q "INST:SEL \"5G NR\"; *OPC?",
     .q "CONF:NR5G:MEAS EVM; *OPC?",
     .q "INIT:IMM; *OPC?",
     .q "INIT:IMM; *OPC?" ],
   "FETC:CC1:ISRC:FRAM:SUMM:POW:AVERage?",
   "FETC:CC1:ISRC:FRAM:SUMM:EVM:ALL:AVERage?",
   [ .q "CONF:NR5G:MEAS ACLR; *OPC?",
     .q "INIT:IMM;*OPC?" ],
   "CALC:MARK:FUNC:POW:RES? ACP",
   [ .q ":CONF:DDPD:STAT OFF; *OPC?",
     .q "CONF:GEN:CONT:STAT OFF; *OPC?",
     .q "CONF:GEN:CONN:STAT OFF; *OPC?" ]⟩

/-- Script of `VSA.perform_gmp_dpd` (vsa.py lines 497-590): lines 502-537
(pre), servos (541-544), lines 551-553 (mid), fetches (554-555), lines
562-563 (preAclr), line 564 (aclrCmd), lines 575-582 (post). -/
def gmpDpdScript (ddpdIterations : Nat) : PhaseScript :=
  ⟨[ .opc "INST:SEL \"Amplifier\"",
     .q "CONF:GEN:CONN:STAT ON; *OPC?",
     .q "CONF:GEN:CONT:STAT ON; *OPC?",
     .q "CONF:SETT; *OPC?",
     .q ":CONF:REFS:CGW:READ; *OPC?",
     .opc "INST:SEL \"Amplifier\"",
     .q "CONF:DDPD:STAT ON; *OPC?",
     .q "CONF:DDPD:TRAD 100; *OPC?",
     .q (":CONF:DDPD:COUN " ++ toString ddpdIterations ++ "; *OPC?"),
     .q ":CONF:DDPD:STAR; *OPC?",
     .q "CONF:MDPD:STAT ON; *OPC?",
     .q "CALC:MDPD:MOD;*OPC?",
     .q "CONF:GMP:LAG:ORD:XTER 1;*OPC?",
     .q "CONF:GMP:LEAD:ORD:XTER 1;*OPC?",
     .q "CONF:MDPD:ITER 5;*OPC?",
     .q ":CALC:MDPD:MOD;*OPC?",
     .q ":CONF:MDPD:WAV:UPD;*OPC?",
     .q "CONF:MDPD:WAV:SEL MDPD;*OPC?",
     .q "CONF:GEN:CONT:STAT OFF; *OPC?",
     .q "CONF:GEN:CONN:STAT OFF; *OPC?" ],
   [ .q "INST:SEL \"5G NR\"; *OPC?",
     .q "CONF:NR5G:MEAS EVM; *OPC?",
     .q "INIT:IMM; *OPC?" ],
   "FETC:CC1:ISRC:FRAM:SUMM:POW:AVERage?",
   "FETC:CC1:ISRC:FRAM:SUMM:EVM:ALL:AVERage?",
   [ .w "CONF:NR5G:MEAS ACLR",
     .w "INIT:IMM;*WAI" ],
   "CALC:MARK:FUNC:POW:RES? ACP",
   [ .q ":INST:SEL \"Amplifier\"; *OPC?",
     .q ":CONF:MDPD:WAV:SEL REF; *OPC?",
     .q ":CONF:DDPD:APPL:STAT OFF; *OPC?",
     .q ":INST:SEL \"5G NR\"; *OPC?",
     .q ":CONF:NR5G:MEAS EVM; *OPC?",
     .q ":CONF:NR5G:DL:CC1:RFUC:STAT OFF; *OPC?",
     .q "CONF:GEN:CONT:STAT OFF; *OPC?",
     .q "CONF:GEN:CONN:STAT OFF; *OPC?" ]⟩

/-- `VSA.measure_evm` (baseline, no DPD). -/
def measure_evm (fuel : Nat) (hasRegulator : Bool) (target : ℚ) (maxIter : Nat)
    (dflts : ServoDefaults) (psArg k18Arg : Option Bool) : M PhaseResult :=
  runPhase fuel baselineScript hasRegulator target maxIter dflts psArg k18Arg

/-- `VSA.perform_single_dpd`. -/
def perform_single_dpd (fuel : Nat) (hasRegulator : Bool) (target : ℚ)
    (maxIter : Nat) (dflts : ServoDefaults) (psArg k18Arg : Option Bool) :
    M PhaseResult :=
  runPhase fuel singleDpdScript hasRegulator target maxIter dflts psArg k18Arg

/-- `VSA.perform_iterative_dpd`. -/
def perform_iterative_dpd (fuel : Nat) (ddpdIterations : Nat)
    (hasRegulator : Bool) (target : ℚ) (maxIter : Nat) (dflts : ServoDefaults)
    (psArg k18Arg : Option Bool) : M PhaseResult :=
  runPhase fuel (iterativeDpdScript ddpdIterations) hasRegulator target maxIter
    dflts psArg k18Arg

/-- `VSA.perform_gmp_dpd`. -/
def perform_gmp_dpd (fuel : Nat) (ddpdIterations : Nat) (hasRegulator : Bool)
    (target : ℚ) (maxIter : Nat) (dflts : ServoDefaults)
    (psArg k18Arg : Option Bool) : M PhaseResult :=
  runPhase fuel (gmpDpdScript ddpdIterations) hasRegulator target maxIter
    dflts psArg k18Arg

/-!  Stub environments (test doubles for the instrument session). -/

/-- Number of `*ESR?` status queries in a trace. -/
def countEsr (l : List Ev) : Nat :=
  (l.filter (fun e => e == Ev.query "*ESR?")).length

/-- Stub whose replies are canned: fixed strings for the power fetch, the
EVM fetch and the ACLR marker query, `"1"` (operation complete / generic
acknowledge) for everything else.  Writes succeed; the external regulator
reports `regIters` iterations with settle time `regSettle`. -/
def cannedEnv (pw ev ac : String) (regIters : Nat) (regSettle regT k18T : ℚ) :
    Env :=
  ⟨fun _ c =>
      Except.ok (if c = "FETC:CC1:ISRC:FRAM:SUMM:POW:AVERage?" then pw
        else if c = "FETC:CC1:ISRC:FRAM:SUMM:EVM:ALL:AVERage?" then ev
        else if c = "CALC:MARK:FUNC:POW:RES? ACP" then ac
        else "1"),
   fun _ _ => Except.ok (),
   Except.ok (regIters, regSettle),
   regT,
   k18T⟩

/-- Stub whose event-status register reports bit 0 set only from the N-th
`*ESR?` poll onward (polls are numbered from 1). -/
def esrCountEnv (N : Nat) : Env :=
  ⟨fun tr c =>
      Except.ok (if c = "*ESR?" then (if N ≤ countEsr tr + 1 then "1" else "0")
        else "1"),
   fun _ _ => Except.ok (),
   Except.ok (0, 0),
   0,
   0⟩

/-- Stub whose event-status register never sets bit 0. -/
def esrNeverEnv : Env :=
  ⟨fun _ c => Except.ok (if c = "*ESR?" then "0" else "1"),
   fun _ _ => Except.ok (),
   Except.ok (0, 0),
   0,
   0⟩

/-- Stub that raises a communication error on one specific query command and
otherwise behaves like the canned stub. -/
def failOnEnv (bad : String) : Env :=
  ⟨fun _ c =>
      if c = bad then Except.error "InstrumentCommunicationError"
      else
        Except.ok (if c = "FETC:CC1:ISRC:FRAM:SUMM:POW:AVERage?" then "10.0"
          else if c = "FETC:CC1:ISRC:FRAM:SUMM:EVM:ALL:AVERage?" then "1.23"
          else if c = "CALC:MARK:FUNC:POW:RES? ACP" then "-5.0,-45.0,-46.0"
          else "1"),
   fun _ _ => Except.ok (),
   Except.ok (0, 0),
   0,
   0⟩

/-!  Basic lemmas about the monad and the atomic operations. -/

theorem mBind_ok {α β : Type} {x : M α} {f : α → M β} {env : Env}
    {tr : List Ev} {b : β} {tr2 : List Ev}
    (h : mBind x f env tr = (Except.ok b, tr2)) :
    ∃ a trm, x env tr = (Except.ok a, trm) ∧ f a env trm = (Except.ok b, tr2) := by
  unfold mBind at h
  cases hx : x env tr with
  | mk res t =>
      rw [hx] at h
      cases res with
      | ok a => exact ⟨a, t, rfl, h⟩
      | error e => simp at h

theorem mBind_eq_of_ok {α β : Type} {x : M α} {f : α → M β} {env : Env}
    {tr trm : List Ev} {a : α} (hx : x env tr = (Except.ok a, trm)) :
    mBind x f env tr = f a env trm := by
  unfold mBind
  rw [hx]

theorem mPure_ok {α : Type} {a b : α} {env : Env} {tr tr2 : List Ev}
    (h : mPure a env tr = (Except.ok b, tr2)) : b = a ∧ tr2 = tr := by
  unfold mPure at h
  have h1 := congrArg Prod.fst h
  have h2 := congrArg Prod.snd h
  simp at h1 h2
  exact ⟨h1.symm, h2.symm⟩

theorem instrQuery_ok {c : String} {env : Env} {tr : List Ev} {s : String}
    {tr2 : List Ev} (h : instrQuery c env tr = (Except.ok s, tr2)) :
    env.reply tr c = Except.ok s ∧ tr2 = tr ++ [Ev.query c] := by
  have hq := h
  unfold instrQuery at hq
  cases hr : env.reply tr c with
  | ok v =>
      rw [hr] at hq
      have h1 : (Except.ok v : Except String String) = Except.ok s :=
        congrArg Prod.fst hq
      have h2 : tr ++ [Ev.query c] = tr2 := congrArg Prod.snd hq
      injection h1 with hv
      subst hv
      exact ⟨rfl, h2.symm⟩
  | error e =>
      rw [hr] at hq
      have h1 : (Except.error e : Except String String) = Except.ok s :=
        congrArg Prod.fst hq
      simp at h1

theorem instrWrite_ok {c : String} {env : Env} {tr : List Ev} {u : Unit}
    {tr2 : List Ev} (h : instrWrite c env tr = (Except.ok u, tr2)) :
    tr2 = tr ++ [Ev.write c] := by
  unfold instrWrite at h
  cases hr : env.writeRes tr c with
  | ok v =>
      rw [hr] at h
      have h2 := congrArg Prod.snd h
      simp at h2
      exact h2.symm
  | error e => rw [hr] at h; simp at h

theorem queryFloat_shape {c : String} {env : Env} {tr : List Ev} {v : PFloat}
    {tr2 : List Ev} (h : queryFloat c env tr = (Except.ok v, tr2)) :
    tr2 = tr ++ [Ev.query c] := by
  unfold queryFloat at h
  have h2 := congrArg Prod.snd h
  simp at h2
  exact h2.symm

/-- Events that the OPC poll loop may add to the trace. -/
def OnlyEsr (l : List Ev) : Prop :=
  ∀ e ∈ l, e = Ev.query "*ESR?" ∨ e = Ev.sleepMs 200

theorem onlyEsr_nil : OnlyEsr [] := by intro e he; cases he

theorem onlyEsr_one : OnlyEsr [Ev.query "*ESR?"] := by
  intro e he
  simp at he
  subst he
  exact Or.inl rfl

theorem onlyEsr_cons2 {l : List Ev} (h : OnlyEsr l) :
    OnlyEsr (Ev.query "*ESR?" :: Ev.sleepMs 200 :: l) := by
  intro e he
  cases he with
  | head => exact Or.inl rfl
  | tail _ he2 =>
      cases he2 with
      | head => exact Or.inr rfl
      | tail _ he3 => exact h e he3

theorem opcPollLoop_trace (fuel : Nat) (env : Env) (tr : List Ev) :
    ∃ l, (opcPollLoop fuel env tr).2 = tr ++ l ∧ OnlyEsr l := by
  induction fuel generalizing tr with
  | zero => exact ⟨[], by simp [opcPollLoop, mThrow], onlyEsr_nil⟩
  | succ n ih =>
      cases hr : env.reply tr "*ESR?" with
      | error e =>
          exact ⟨[Ev.query "*ESR?"],
            by simp [opcPollLoop, mBind, instrQuery, hr], onlyEsr_one⟩
      | ok s =>
          cases hp : pyInt? s with
          | none =>
              exact ⟨[Ev.query "*ESR?"],
                by simp [opcPollLoop, mBind, instrQuery, hr, hp, mThrow],
                onlyEsr_one⟩
          | some k =>
              by_cases hk : k % 2 = 1
              · exact ⟨[Ev.query "*ESR?"],
                  by simp [opcPollLoop, mBind, instrQuery, hr, hp, hk, mPure],
                  onlyEsr_one⟩
              · obtain ⟨l2, hl2, ho2⟩ := ih (tr ++ [Ev.query "*ESR?", Ev.sleepMs 200])
                refine ⟨Ev.query "*ESR?" :: Ev.sleepMs 200 :: l2, ?_,
                  onlyEsr_cons2 ho2⟩
                simp only [opcPollLoop, mBind, instrQuery, hr, hp, hk, if_false,
                  sleep200]
                rw [show tr ++ [Ev.query "*ESR?"] ++ [Ev.sleepMs 200] =
                    tr ++ [Ev.query "*ESR?", Ev.sleepMs 200] from by simp]
                rw [hl2]
                simp

/-!  Trace shapes of script actions, servos and whole phases. -/

/-- The events an action surely records (for `.opc`, the three arming/command
writes; the variable-length poll block is described separately). -/
def actEvs : Act → List Ev
  | .q c => [Ev.query c]
  | .w c => [Ev.write c]
  | .opc c => [Ev.write "*ESE 1", Ev.write "*SRE 32", Ev.write (c ++ ";*OPC")]

/-- Concatenated fixed events of a list of actions. -/
def expandActs : List Act → List Ev
  | [] => []
  | a :: as => actEvs a ++ expandActs as

/-- Relation between one action and the trace segment it records. -/
inductive ActTrace : Act → List Ev → Prop
  | q (c : String) : ActTrace (.q c) [Ev.query c]
  | w (c : String) : ActTrace (.w c) [Ev.write c]
  | opc (c : String) (l : List Ev) (h : OnlyEsr l) :
      ActTrace (.opc c)
        ([Ev.write "*ESE 1", Ev.write "*SRE 32", Ev.write (c ++ ";*OPC")] ++ l)

/-- Relation between an action list and the trace segment it records. -/
inductive ActsTrace : List Act → List Ev → Prop
  | nil : ActsTrace [] []
  | cons {a : Act} {as : List Act} {la ls : List Ev} :
      ActTrace a la → ActsTrace as ls → ActsTrace (a :: as) (la ++ ls)

theorem runAct_ok {fuel : Nat} {a : Act} {env : Env} {tr : List Ev} {u : Unit}
    {tr2 : List Ev} (h : runAct fuel a env tr = (Except.ok u, tr2)) :
    ∃ l, tr2 = tr ++ l ∧ ActTrace a l := by
  cases a with
  | q c =>
      obtain ⟨s, trm, hq, hp⟩ := mBind_ok h
      obtain ⟨-, htr⟩ := instrQuery_ok hq
      obtain ⟨-, htr2⟩ := mPure_ok hp
      exact ⟨[Ev.query c], by rw [htr2, htr], ActTrace.q c⟩
  | w c =>
      exact ⟨[Ev.write c], instrWrite_ok h, ActTrace.w c⟩
  | opc c =>
      obtain ⟨u1, t1, hw1, hrest⟩ := mBind_ok h
      obtain ⟨u2, t2, hw2, hrest2⟩ := mBind_ok hrest
      obtain ⟨u3, t3, hw3, hpoll⟩ := mBind_ok hrest2
      have e1 := instrWrite_ok hw1
      have e2 := instrWrite_ok hw2
      have e3 := instrWrite_ok hw3
      obtain ⟨l, hl, ho⟩ := opcPollLoop_trace fuel env t3
      rw [hpoll] at hl
      have hl2 : tr2 = t3 ++ l := hl
      refine ⟨[Ev.write "*ESE 1", Ev.write "*SRE 32",
        Ev.write (c ++ ";*OPC")] ++ l, ?_, ActTrace.opc c l ho⟩
      rw [hl2, e3, e2, e1]
      simp

theorem runActs_ok {fuel : Nat} {as : List Act} {env : Env} {tr : List Ev}
    {u : Unit} {tr2 : List Ev}
    (h : runActs fuel as env tr = (Except.ok u, tr2)) :
    ∃ l, tr2 = tr ++ l ∧ ActsTrace as l := by
  induction as generalizing tr with
  | nil =>
      obtain ⟨-, htr⟩ := mPure_ok h
      exact ⟨[], by rw [htr]; simp, ActsTrace.nil⟩
  | cons a as ih =>
      obtain ⟨u1, trm, ha, hrest⟩ := mBind_ok h
      obtain ⟨la, hla, hta⟩ := runAct_ok ha
      obtain ⟨ls, hls, hts⟩ := ih hrest
      exact ⟨la ++ ls, by rw [hls, hla]; simp, ActsTrace.cons hta hts⟩

theorem actTrace_mem {a : Act} {l : List Ev} {e : Ev} (h : ActTrace a l)
    (he : e ∈ l) :
    e ∈ actEvs a ∨ e = Ev.query "*ESR?" ∨ e = Ev.sleepMs 200 := by
  cases h with
  | q c => exact Or.inl he
  | w c => exact Or.inl he
  | opc c lo ho =>
      rcases List.mem_append.mp he with h1 | h2
      · exact Or.inl h1
      · exact Or.inr (ho e h2)

theorem actsTrace_mem {as : List Act} {l : List Ev} {e : Ev}
    (h : ActsTrace as l) (he : e ∈ l) :
    (∃ a ∈ as, e ∈ actEvs a) ∨ e = Ev.query "*ESR?" ∨ e = Ev.sleepMs 200 := by
  induction h with
  | nil => cases he
  | cons ha hs ih =>
      rcases List.mem_append.mp he with h1 | h2
      · rcases actTrace_mem ha h1 with h3 | h4
        · exact Or.inl ⟨_, List.mem_cons_self _ _, h3⟩
        · exact Or.inr h4
      · rcases ih h2 with ⟨a2, ha2, he2⟩ | h4
        · exact Or.inl ⟨a2, List.mem_cons_of_mem _ ha2, he2⟩
        · exact Or.inr h4

theorem actsTrace_noP {P : Ev → Bool} {as : List Act} {l : List Ev}
    (h : ActsTrace as l) (hE : P (Ev.query "*ESR?") = false)
    (hS : P (Ev.sleepMs 200) = false)
    (hAs : ∀ a ∈ as, ∀ e ∈ actEvs a, P e = false) :
    ∀ e ∈ l, P e = false := by
  intro e he
  rcases actsTrace_mem h he with ⟨a, ha, hea⟩ | rfl | rfl
  · exact hAs a ha e hea
  · exact hE
  · exact hS

theorem actsTrace_noOpc_eq {as : List Act} {l : List Ev} (h : ActsTrace as l)
    (hno : ∀ c, Act.opc c ∉ as) : l = expandActs as := by
  induction h with
  | nil => rfl
  | @cons a as2 la ls ha hs ih =>
      have hno2 : ∀ c, Act.opc c ∉ as2 := by
        intro c hc
        exact hno c (List.mem_cons_of_mem _ hc)
      rw [ih hno2]
      cases ha with
      | q c => rfl
      | w c => rfl
      | opc c lo ho => exact absurd (List.mem_cons_self _ _) (hno c)

/-- Trace of the servo stage as a function of the resolved flags. -/
def servoEvs (ext k18 : Bool) (target : ℚ) (maxIter : Nat) : List Ev :=
  (if ext then [Ev.regulateCall] else []) ++
  (if k18 then expandActs (k18Acts target maxIter) else [])

theorem power_servo_ok {env : Env} {tr : List Ev} {v : Nat × ℚ × ℚ}
    {tr2 : List Ev} (h : power_servo env tr = (Except.ok v, tr2)) :
    tr2 = tr ++ [Ev.regulateCall] ∧
      env.regulate = Except.ok (v.1, v.2.2) ∧ v.2.1 = env.regElapsed := by
  have hq := h
  unfold power_servo at hq
  cases hr : env.regulate with
  | ok p =>
      rw [hr] at hq
      have h1 : (Except.ok (p.1, env.regElapsed, p.2) :
          Except String (Nat × ℚ × ℚ)) = Except.ok v := congrArg Prod.fst hq
      have h2 : tr ++ [Ev.regulateCall] = tr2 := congrArg Prod.snd hq
      injection h1 with hv
      rw [← hv]
      exact ⟨h2.symm, rfl, rfl⟩
  | error e =>
      rw [hr] at hq
      have h1 : (Except.error e : Except String (Nat × ℚ × ℚ)) = Except.ok v :=
        congrArg Prod.fst hq
      simp at h1

theorem getK18Elapsed_ok {env : Env} {tr : List Ev} {t : ℚ} {tr2 : List Ev}
    (h : getK18Elapsed env tr = (Except.ok t, tr2)) :
    t = env.k18Elapsed ∧ tr2 = tr := by
  unfold getK18Elapsed at h
  have h1 : (Except.ok env.k18Elapsed : Except String ℚ) = Except.ok t :=
    congrArg Prod.fst h
  have h2 : tr = tr2 := congrArg Prod.snd h
  injection h1 with hv
  exact ⟨hv.symm, h2.symm⟩

theorem K18_power_servo_ok {target : ℚ} {maxIter : Nat} {env : Env}
    {tr : List Ev} {t : ℚ} {tr2 : List Ev}
    (h : K18_power_servo target maxIter env tr = (Except.ok t, tr2)) :
    tr2 = tr ++ expandActs (k18Acts target maxIter) ∧ t = env.k18Elapsed := by
  obtain ⟨u, trm, hacts, hget⟩ := mBind_ok h
  obtain ⟨l, hl, hts⟩ := runActs_ok hacts
  obtain ⟨ht, htr⟩ := getK18Elapsed_ok hget
  have hq : ∀ c, Act.opc c ∉ k18Acts target maxIter := by
    intro c hc
    simp [k18Acts] at hc
  rw [htr, hl, actsTrace_noOpc_eq hts hq]
  exact ⟨rfl, ht⟩

theorem run_servos_ok {hasReg : Bool} {target : ℚ} {maxIter : Nat}
    {usePS useK18 : Bool} {env : Env} {tr : List Ev} {v : Nat × ℚ × ℚ}
    {tr2 : List Ev}
    (h : run_servos hasReg target maxIter usePS useK18 env tr =
      (Except.ok v, tr2)) :
    tr2 = tr ++ servoEvs (usePS && hasReg) useK18 target maxIter ∧
    (if usePS && hasReg
      then (∃ settle, env.regulate = Except.ok (v.1, settle)) ∧
           v.2.1 = env.regElapsed
      else v.1 = 0 ∧ v.2.1 = 0) ∧
    (if useK18 then v.2.2 = env.k18Elapsed else v.2.2 = 0) := by
  obtain ⟨le, t1, h1, hrest⟩ := mBind_ok h
  obtain ⟨kt, t2, h2, h3⟩ := mBind_ok hrest
  obtain ⟨hv, htr⟩ := mPure_ok h3
  subst hv
  subst htr
  cases hps : usePS && hasReg with
  | true =>
      rw [hps] at h1
      simp only [if_true] at h1
      obtain ⟨r0, t0, hpw, hle⟩ := mBind_ok h1
      obtain ⟨htr0, hreg, hrel⟩ := power_servo_ok hpw
      obtain ⟨hlev, hlet⟩ := mPure_ok hle
      subst hlev
      subst hlet
      subst htr0
      cases hk : useK18 with
      | true =>
          rw [hk] at h2
          simp only [if_true] at h2
          obtain ⟨htr2, hkt⟩ := K18_power_servo_ok h2
          subst htr2
          subst hkt
          exact ⟨by simp [servoEvs], ⟨⟨r0.2.2, hreg⟩, hrel⟩, rfl⟩
      | false =>
          rw [hk] at h2
          simp only [Bool.false_eq_true, if_false] at h2
          obtain ⟨hktv, hktt⟩ := mPure_ok h2
          subst hktv
          subst hktt
          exact ⟨by simp [servoEvs], ⟨⟨r0.2.2, hreg⟩, hrel⟩, rfl⟩
  | false =>
      rw [hps] at h1
      simp only [Bool.false_eq_true, if_false] at h1
      obtain ⟨hlev, hlet⟩ := mPure_ok h1
      subst hlev
      subst hlet
      cases hk : useK18 with
      | true =>
          rw [hk] at h2
          simp only [if_true] at h2
          obtain ⟨htr2, hkt⟩ := K18_power_servo_ok h2
          subst htr2
          subst hkt
          exact ⟨by simp [servoEvs], ⟨rfl, rfl⟩, rfl⟩
      | false =>
          rw [hk] at h2
          simp only [Bool.false_eq_true, if_false] at h2
          obtain ⟨hktv, hktt⟩ := mPure_ok h2
          subst hktv
          subst hktt
          exact ⟨by simp [servoEvs], ⟨rfl, rfl⟩, rfl⟩

theorem runPhase_ok {fuel : Nat} {s : PhaseScript} {hasReg : Bool} {target : ℚ}
    {maxIter : Nat} {dflts : ServoDefaults} {psa k18a : Option Bool} {env : Env}
    {r : PhaseResult} {tr2 : List Ev}
    (h : runPhase fuel s hasReg target maxIter dflts psa k18a env [] =
      (Except.ok r, tr2)) :
    ∃ l1 l2 l3 l4,
      ActsTrace s.pre l1 ∧ ActsTrace s.mid l2 ∧ ActsTrace s.preAclr l3 ∧
      ActsTrace s.post l4 ∧
      tr2 = l1 ++
        servoEvs (resolveServoFlag psa dflts.usePowerServo && hasReg)
          (resolveServoFlag k18a dflts.useK18PowerServo) target maxIter ++
        l2 ++ [Ev.query s.powerCmd, Ev.query s.evmCmd] ++ l3 ++
        [Ev.query s.aclrCmd] ++ l4 ∧
      (if resolveServoFlag psa dflts.usePowerServo && hasReg
        then (∃ settle, env.regulate = Except.ok (r.servoLoops, settle)) ∧
             r.extServoTime = env.regElapsed
        else r.servoLoops = 0 ∧ r.extServoTime = 0) ∧
      (if resolveServoFlag k18a dflts.useK18PowerServo
        then r.k18Time = env.k18Elapsed else r.k18Time = 0) := by
  unfold runPhase at h
  obtain ⟨u1, t1, hpre, h⟩ := mBind_ok h
  obtain ⟨v, t2, hsrv, h⟩ := mBind_ok h
  obtain ⟨u2, t3, hmid, h⟩ := mBind_ok h
  obtain ⟨p, t4, hpw, h⟩ := mBind_ok h
  obtain ⟨e0, t5, hev, h⟩ := mBind_ok h
  obtain ⟨u3, t6, hpa, h⟩ := mBind_ok h
  obtain ⟨rep, t7, hac, h⟩ := mBind_ok h
  obtain ⟨l1, hl1, ht1⟩ := runActs_ok hpre
  obtain ⟨hsrvTr, hsrvPS, hsrvK⟩ := run_servos_ok hsrv
  obtain ⟨l2, hl2, ht2⟩ := runActs_ok hmid
  have hql4 := queryFloat_shape hpw
  have hql5 := queryFloat_shape hev
  obtain ⟨l3, hl3, ht3⟩ := runActs_ok hpa
  obtain ⟨-, hql7⟩ := instrQuery_ok hac
  cases hp : parseAclr3 rep with
  | none =>
      rw [hp] at h
      have hcontra : (Except.error aclrParseMsg : Except String PhaseResult) =
          Except.ok r := congrArg Prod.fst h
      simp at hcontra
  | some triple =>
      obtain ⟨cp, alu⟩ := triple
      obtain ⟨al, au⟩ := alu
      rw [hp] at h
      obtain ⟨u4, t8, hpost, h⟩ := mBind_ok h
      obtain ⟨l4, hl4, ht4⟩ := runActs_ok hpost
      obtain ⟨hrv, hrt⟩ := mPure_ok h
      subst hrv
      refine ⟨l1, l2, l3, l4, ht1, ht2, ht3, ht4, ?_, ?_, ?_⟩
      · rw [hrt, hl4, hql7, hl3, hql5, hql4, hl2, hsrvTr, hl1]
        simp
      · simpa using hsrvPS
      · simpa using hsrvK

/-!  Classification of commands for the mode-restoration claims.  These are
exactly the instrument-context selection commands and measurement-type
commands that occur in vsa.py. -/

/-- String membership in a command list. -/
def strMem (c : String) : List String → Bool
  | [] => false
  | d :: ds => if c = d then true else strMem c ds

/-- All context-selection (`INST:SEL`) command spellings issued by vsa.py. -/
def ctxCmds : List String :=
  ["INST:SEL \"5G NR\"; *OPC?", ":INST:SEL \"5G NR\"; *OPC?",
   "INST:SEL \"Amplifier\"; *OPC?", ":INST:SEL \"Amplifier\"; *OPC?",
   "INST:SEL \"Amplifier\";*OPC"]

/-- Context selections of the 5G NR measurement context. -/
def nrCmds : List String :=
  ["INST:SEL \"5G NR\"; *OPC?", ":INST:SEL \"5G NR\"; *OPC?"]

/-- All measurement-type (`CONF:NR5G:MEAS`) command spellings in vsa.py. -/
def measCmds : List String :=
  ["CONF:NR5G:MEAS EVM", "CONF:NR5G:MEAS EVM; *OPC?",
   ":CONF:NR5G:MEAS EVM; *OPC?",
   "CONF:NR5G:MEAS ACLR", "CONF:NR5G:MEAS ACLR; *OPC?"]

/-- Measurement-type commands selecting EVM. -/
def evmSetCmds : List String :=
  ["CONF:NR5G:MEAS EVM", "CONF:NR5G:MEAS EVM; *OPC?",
   ":CONF:NR5G:MEAS EVM; *OPC?"]

/-- Measurement-type commands selecting ACLR. -/
def aclrSetCmds : List String :=
  ["CONF:NR5G:MEAS ACLR", "CONF:NR5G:MEAS ACLR; *OPC?"]

/-- The command text carried by an event, if any. -/
def evCmd : Ev → Option String
  | .write c => some c
  | .query c => some c
  | _ => none

/-- Does the event issue a command from the given list? -/
def evCmdIn (e : Ev) (l : List String) : Bool :=
  match evCmd e with
  | some c => strMem c l
  | none => false

/-- The event is an instrument-context selection. -/
def isCtxSel (e : Ev) : Bool := evCmdIn e ctxCmds

/-- The event selects the 5G NR measurement context. -/
def selsNR (e : Ev) : Bool := evCmdIn e nrCmds

/-- The event sets the active measurement type. -/
def isMeasSet (e : Ev) : Bool := evCmdIn e measCmds

/-- The event sets EVM as the active measurement type. -/
def setsEVM (e : Ev) : Bool := evCmdIn e evmSetCmds

/-- The event sets ACLR as the active measurement type. -/
def setsACLR (e : Ev) : Bool := evCmdIn e aclrSetCmds

/-- "The last `P`-event of the trace satisfies `Q`": there is a `Q`-event
after which no further `P`-event occurs. -/
def LastEv (P Q : Ev → Bool) (l : List Ev) : Prop :=
  ∃ x e y, l = x ++ e :: y ∧ Q e = true ∧ ∀ f ∈ y, P f = false

/-- Executable check of the same property via `filter`/`getLast?`. -/
def lastSatB (P Q : Ev → Bool) (l : List Ev) : Bool :=
  match (l.filter P).getLast? with
  | some e => Q e
  | none => false

theorem lastEv_bridge {P Q : Ev → Bool} (hPQ : ∀ e, Q e = true → P e = true)
    {l : List Ev} (h : LastEv P Q l) : lastSatB P Q l = true := by
  obtain ⟨x, e, y, rfl, hQ, hy⟩ := h
  have hPe := hPQ e hQ
  unfold lastSatB
  rw [List.filter_append, List.filter_cons_of_pos hPe]
  have hynil : y.filter P = [] := by
    rw [List.filter_eq_nil_iff]
    intro a ha
    rw [hy a ha]
    simp
  rw [hynil]
  rw [List.getLast?_concat]
  exact hQ

/-- Unfold a phase run, given that every step before the ACLR parse
succeeded, down to the parse decision on the ACLR reply. -/
theorem runPhase_to_parse {fuel : Nat} {s : PhaseScript} {hasReg : Bool}
    {target : ℚ} {maxIter : Nat} {dflts : ServoDefaults} {psa k18a : Option Bool}
    {env : Env} {t1 t2 t3 t4 t5 t6 t7 : List Ev} {v : Nat × ℚ × ℚ}
    {p e0 : PFloat} {rep : String}
    (h1 : runActs fuel s.pre env [] = (Except.ok (), t1))
    (h2 : run_servos hasReg target maxIter
      (resolveServoFlag psa dflts.usePowerServo)
      (resolveServoFlag k18a dflts.useK18PowerServo) env t1 = (Except.ok v, t2))
    (h3 : runActs fuel s.mid env t2 = (Except.ok (), t3))
    (h4 : queryFloat s.powerCmd env t3 = (Except.ok p, t4))
    (h5 : queryFloat s.evmCmd env t4 = (Except.ok e0, t5))
    (h6 : runActs fuel s.preAclr env t5 = (Except.ok (), t6))
    (h7 : instrQuery s.aclrCmd env t6 = (Except.ok rep, t7)) :
    runPhase fuel s hasReg target maxIter dflts psa k18a env [] =
      (match parseAclr3 rep with
       | some z =>
           mBind (runActs fuel s.post) (fun _ =>
             mPure { power := p, evm := e0, chanPow := z.1, adjLower := z.2.1,
                     adjUpper := z.2.2, servoLoops := v.1,
                     extServoTime := v.2.1, k18Time := v.2.2 }) env t7
       | none => (Except.error aclrParseMsg, t7)) := by
  unfold runPhase
  rw [mBind_eq_of_ok h1, mBind_eq_of_ok h2, mBind_eq_of_ok h3,
    mBind_eq_of_ok h4, mBind_eq_of_ok h5, mBind_eq_of_ok h6,
    mBind_eq_of_ok h7]
  cases hz : parseAclr3 rep with
  | none => simp [hz, mThrow]
  | some z =>
      obtain ⟨cp, alu⟩ := z
      obtain ⟨al, au⟩ := alu
      simp [hz]

/-!  Small helper lemmas used by the claim theorems. -/

theorem pairOfFst {α β : Type} {p : α × β} {a : α} (h : p.1 = a) :
    p = (a, p.2) := by
  rw [← h]

theorem strMem_true_iff (c : String) (l : List String) :
    strMem c l = true ↔ c ∈ l := by
  induction l with
  | nil => simp [strMem]
  | cons d ds ih =>
      unfold strMem
      by_cases hc : c = d
      · subst hc
        simp
      · simp [hc, ih]

theorem selsNR_isCtxSel : ∀ e, selsNR e = true → isCtxSel e = true := by
  intro e he
  unfold selsNR evCmdIn at he
  unfold isCtxSel evCmdIn
  cases hc : evCmd e with
  | none => rw [hc] at he; exact absurd he (by simp)
  | some c =>
      rw [hc] at he
      rw [strMem_true_iff] at he ⊢
      simp only [nrCmds, List.mem_cons, List.not_mem_nil, or_false] at he
      rcases he with rfl | rfl <;> decide

theorem setsEVM_isMeasSet : ∀ e, setsEVM e = true → isMeasSet e = true := by
  intro e he
  unfold setsEVM evCmdIn at he
  unfold isMeasSet evCmdIn
  cases hc : evCmd e with
  | none => rw [hc] at he; exact absurd he (by simp)
  | some c =>
      rw [hc] at he
      rw [strMem_true_iff] at he ⊢
      simp only [evmSetCmds, List.mem_cons, List.not_mem_nil, or_false] at he
      rcases he with rfl | rfl | rfl <;> decide

theorem setsACLR_isMeasSet : ∀ e, setsACLR e = true → isMeasSet e = true := by
  intro e he
  unfold setsACLR evCmdIn at he
  unfold isMeasSet evCmdIn
  cases hc : evCmd e with
  | none => rw [hc] at he; exact absurd he (by simp)
  | some c =>
      rw [hc] at he
      rw [strMem_true_iff] at he ⊢
      simp only [aclrSetCmds, List.mem_cons, List.not_mem_nil, or_false] at he
      rcases he with rfl | rfl <;> decide

theorem actEvs_no_reg : ∀ a : Act, Ev.regulateCall ∉ actEvs a := by
  intro a
  cases a <;> simp [actEvs]

theorem actsTrace_no_reg {as : List Act} {l : List Ev} (h : ActsTrace as l) :
    Ev.regulateCall ∉ l := by
  intro hmem
  rcases actsTrace_mem h hmem with ⟨a, -, hea⟩ | h2 | h2
  · exact actEvs_no_reg a hea
  · cases h2
  · cases h2

/-- Two strings differ if they already differ on the first `k` characters of
their concrete prefixes; the left string is an appended compound whose first
component has at least `k` characters. -/
theorem str_ne_take2 {a t : String} (k : Nat) (hk : k ≤ a.data.length)
    (hne : a.data.take k ≠ t.data.take k) (b c : String) : a ++ b ++ c ≠ t := by
  intro h
  apply hne
  have hd : (a ++ b ++ c).data = a.data ++ b.data ++ c.data := by
    rw [String.data_append, String.data_append]
  have h1 : (a.data ++ b.data ++ c.data).take k = a.data.take k := by
    rw [List.append_assoc]
    exact List.take_append_of_le_length hk
  rw [← h1, ← hd, h]

/-- The interpolated DDPD iteration-count command is none of the special
commands tracked by the claims. -/
theorem counCmd_ne (inner : String) :
    (":CONF:DDPD:COUN " ++ inner ++ "; *OPC?" ≠ ":SENS:PSER:STAR; *OPC?") ∧
    (":CONF:DDPD:COUN " ++ inner ++ "; *OPC?" ≠
      "INST:SEL \"Amplifier\"; *OPC?") := by
  constructor
  · exact str_ne_take2 3 (by decide) (by decide) inner "; *OPC?"
  · exact str_ne_take2 1 (by decide) (by decide) inner "; *OPC?"

/-- `takeWhile` over a split whose prefix wholly satisfies the predicate and
whose pivot element fails it. -/
theorem takeWhile_split {p : Ev → Bool} {x y : List Ev} {e : Ev}
    (hx : ∀ f ∈ x, p f = true) (he : p e = false) :
    (x ++ e :: y).takeWhile p = x := by
  induction x with
  | nil => simp [List.takeWhile, he]
  | cons a as ih =>
      have ha : p a = true := hx a (List.mem_cons_self _ _)
      have has : ∀ f ∈ as, p f = true := by
        intro f hf
        exact hx f (List.mem_cons_of_mem _ hf)
      simp [List.takeWhile, ha, ih has]

/-!  The OPC poll loop against counting / never-ready status registers. -/

/-- Trace of a poll loop that succeeds on its k-th `*ESR?` query:
k status queries with a 200 ms sleep between consecutive polls. -/
def pollBlock : Nat → List Ev
  | 0 => []
  | 1 => [Ev.query "*ESR?"]
  | k + 2 => Ev.query "*ESR?" :: Ev.sleepMs 200 :: pollBlock (k + 1)

/-- Trace of a poll loop that exhausts its fuel: every poll is followed by a
sleep and another poll. -/
def pollBlockNever : Nat → List Ev
  | 0 => []
  | f + 1 => Ev.query "*ESR?" :: Ev.sleepMs 200 :: pollBlockNever f

theorem countEsr_append (a b : List Ev) :
    countEsr (a ++ b) = countEsr a + countEsr b := by
  simp [countEsr, List.filter_append]

theorem countEsr_pollBlock : ∀ k, countEsr (pollBlock k) = k
  | 0 => by decide
  | 1 => by decide
  | (k + 2) => by
      have ih := countEsr_pollBlock (k + 1)
      have hone : countEsr [Ev.query "*ESR?", Ev.sleepMs 200] = 1 := by decide
      show countEsr ([Ev.query "*ESR?", Ev.sleepMs 200] ++ pollBlock (k + 1)) =
        k + 2
      rw [countEsr_append, ih, hone]
      omega

theorem countEsr_pollBlockNever : ∀ f, countEsr (pollBlockNever f) = f
  | 0 => by decide
  | (f + 1) => by
      have ih := countEsr_pollBlockNever f
      have hone : countEsr [Ev.query "*ESR?", Ev.sleepMs 200] = 1 := by decide
      show countEsr ([Ev.query "*ESR?", Ev.sleepMs 200] ++ pollBlockNever f) =
        f + 1
      rw [countEsr_append, ih, hone]
      omega

theorem opcPoll_count {N : Nat} : ∀ (fuel k : Nat) (tr : List Ev),
    1 ≤ k → k ≤ fuel → countEsr tr + k = N →
    opcPollLoop fuel (esrCountEnv N) tr = (Except.ok (), tr ++ pollBlock k) := by
  intro fuel
  induction fuel with
  | zero => intro k tr h1 h2 h3; omega
  | succ f ih =>
      intro k tr h1 h2 h3
      have hp1 : pyInt? "1" = some 1 := by decide
      have hp0 : pyInt? "0" = some 0 := by decide
      have h12 : ((1 : Int) % 2 = 1) = True := eq_true (by decide)
      have h02 : ((0 : Int) % 2 = 1) = False := eq_false (by decide)
      by_cases hk1 : k = 1
      · subst hk1
        have hcond : N ≤ countEsr tr + 1 := by omega
        have hq1 : instrQuery "*ESR?" (esrCountEnv N) tr =
            (Except.ok "1", tr ++ [Ev.query "*ESR?"]) := by
          unfold instrQuery
          simp [esrCountEnv, hcond]
        show opcPollLoop (f + 1) (esrCountEnv N) tr = _
        simp only [opcPollLoop]
        rw [mBind_eq_of_ok hq1]
        simp only [hp1, h12, if_true, mPure, pollBlock]
      · have hcond : ¬(N ≤ countEsr tr + 1) := by omega
        obtain ⟨m, rfl⟩ : ∃ m, k = m + 2 := ⟨k - 2, by omega⟩
        have hcnt : countEsr (tr ++ [Ev.query "*ESR?", Ev.sleepMs 200]) +
            (m + 1) = N := by
          rw [countEsr_append]
          have hone : countEsr [Ev.query "*ESR?", Ev.sleepMs 200] = 1 := by
            decide
          omega
        have ihstep := ih (m + 1) (tr ++ [Ev.query "*ESR?", Ev.sleepMs 200])
          (by omega) (by omega) hcnt
        have hq0 : instrQuery "*ESR?" (esrCountEnv N) tr =
            (Except.ok "0", tr ++ [Ev.query "*ESR?"]) := by
          unfold instrQuery
          simp [esrCountEnv, hcond]
        show opcPollLoop (f + 1) (esrCountEnv N) tr = _
        simp only [opcPollLoop]
        rw [mBind_eq_of_ok hq0]
        simp only [hp0, h02, if_false, mBind, sleep200]
        rw [show tr ++ [Ev.query "*ESR?"] ++ [Ev.sleepMs 200] =
            tr ++ [Ev.query "*ESR?", Ev.sleepMs 200] from by simp]
        rw [ihstep]
        have hblock : pollBlock (m + 2) =
            [Ev.query "*ESR?", Ev.sleepMs 200] ++ pollBlock (m + 1) := rfl
        rw [hblock]
        simp

theorem opcPoll_never : ∀ (fuel : Nat) (tr : List Ev),
    opcPollLoop fuel esrNeverEnv tr =
      (Except.error opcFuelMsg, tr ++ pollBlockNever fuel) := by
  intro fuel
  induction fuel with
  | zero => intro tr; simp [opcPollLoop, mThrow, pollBlockNever]
  | succ f ih =>
      intro tr
      have hp0 : pyInt? "0" = some 0 := by decide
      have h02 : ((0 : Int) % 2 = 1) = False := eq_false (by decide)
      have hq0 : instrQuery "*ESR?" esrNeverEnv tr =
          (Except.ok "0", tr ++ [Ev.query "*ESR?"]) := rfl
      show opcPollLoop (f + 1) esrNeverEnv tr = _
      simp only [opcPollLoop]
      rw [mBind_eq_of_ok hq0]
      simp only [hp0, h02, if_false, mBind, sleep200]
      rw [show tr ++ [Ev.query "*ESR?"] ++ [Ev.sleepMs 200] =
          tr ++ [Ev.query "*ESR?", Ev.sleepMs 200] from by simp]
      rw [ih]
      have hblock : pollBlockNever (f + 1) =
          [Ev.query "*ESR?", Ev.sleepMs 200] ++ pollBlockNever f := rfl
      rw [hblock]
      simp

/-!  Claim theorems: synchronized command executor (C2, C9). -/

/-- C2: `write_command_opc` first writes `*ESE 1`, then `*SRE 32`, then the
command with `;*OPC` appended as a non-blocking write, then polls `*ESR?`
(with 200 ms sleeps between consecutive polls) until a reply with bit 0 set;
against an instrument whose register reply has bit 0 set only from the N-th
poll onward it issues exactly N (hence at least N) status queries before
returning. -/
theorem write_command_opc_spec (command : String) (N fuel : Nat)
    (h1 : 1 ≤ N) (h2 : N ≤ fuel) :
    write_command_opc fuel command (esrCountEnv N) [] =
      (Except.ok (), [Ev.write "*ESE 1", Ev.write "*SRE 32",
        Ev.write (command ++ ";*OPC")] ++ pollBlock N) ∧
    countEsr (pollBlock N) = N := by
  refine ⟨?_, countEsr_pollBlock N⟩
  have e1 : instrWrite "*ESE 1" (esrCountEnv N) [] =
      (Except.ok (), [Ev.write "*ESE 1"]) := rfl
  have e2 : instrWrite "*SRE 32" (esrCountEnv N) [Ev.write "*ESE 1"] =
      (Except.ok (), [Ev.write "*ESE 1", Ev.write "*SRE 32"]) := rfl
  have e3 : instrWrite (command ++ ";*OPC") (esrCountEnv N)
      [Ev.write "*ESE 1", Ev.write "*SRE 32"] =
      (Except.ok (), [Ev.write "*ESE 1", Ev.write "*SRE 32",
        Ev.write (command ++ ";*OPC")]) := rfl
  have hc : countEsr [Ev.write "*ESE 1", Ev.write "*SRE 32",
      Ev.write (command ++ ";*OPC")] + N = N := by
    have h0 : countEsr [Ev.write "*ESE 1", Ev.write "*SRE 32",
        Ev.write (command ++ ";*OPC")] = 0 := rfl
    omega
  unfold write_command_opc
  rw [mBind_eq_of_ok e1, mBind_eq_of_ok e2, mBind_eq_of_ok e3]
  exact opcPoll_count fuel N _ h1 h2 hc

/-- Witness for C2 at command `INST:SEL "Amplifier"`, N = 3, fuel = 5. -/
theorem write_command_opc_spec_witness :
    (1 ≤ 3 ∧ 3 ≤ 5) ∧
    (write_command_opc 5 "INST:SEL \"Amplifier\"" (esrCountEnv 3) [] =
      (Except.ok (), [Ev.write "*ESE 1", Ev.write "*SRE 32",
        Ev.write ("INST:SEL \"Amplifier\"" ++ ";*OPC")] ++ pollBlock 3) ∧
     countEsr (pollBlock 3) = 3) :=
  ⟨⟨by decide, by decide⟩,
   write_command_opc_spec "INST:SEL \"Amplifier\"" 3 5 (by decide) (by decide)⟩

/-- C9: against an instrument whose event-status register never reports
bit 0, the poll loop of `write_command_opc` is still running after any
number of polls: for every poll budget `fuel` the run ends in the
fuel-exhaustion marker (never a normal return) having issued exactly `fuel`
status queries — there is no timeout error path and no wait bound. -/
theorem write_command_opc_unbounded (command : String) (fuel : Nat) :
    write_command_opc fuel command esrNeverEnv [] =
      (Except.error opcFuelMsg, [Ev.write "*ESE 1", Ev.write "*SRE 32",
        Ev.write (command ++ ";*OPC")] ++ pollBlockNever fuel) ∧
    countEsr (pollBlockNever fuel) = fuel := by
  refine ⟨?_, countEsr_pollBlockNever fuel⟩
  have e1 : instrWrite "*ESE 1" esrNeverEnv [] =
      (Except.ok (), [Ev.write "*ESE 1"]) := rfl
  have e2 : instrWrite "*SRE 32" esrNeverEnv [Ev.write "*ESE 1"] =
      (Except.ok (), [Ev.write "*ESE 1", Ev.write "*SRE 32"]) := rfl
  have e3 : instrWrite (command ++ ";*OPC") esrNeverEnv
      [Ev.write "*ESE 1", Ev.write "*SRE 32"] =
      (Except.ok (), [Ev.write "*ESE 1", Ev.write "*SRE 32",
        Ev.write (command ++ ";*OPC")]) := rfl
  unfold write_command_opc
  rw [mBind_eq_of_ok e1, mBind_eq_of_ok e2, mBind_eq_of_ok e3]
  exact opcPoll_never fuel _

/-!  Claim theorem: queryFloat soft-failure (C3). -/

/-- C3: `queryFloat` never raises on a reply that is not a number — it
returns NaN — and returns exactly the parsed value for a well-formed numeric
reply; concretely `float("ERR")` fails and `float("12.345")` is 12.345. -/
theorem queryFloat_spec (env : Env) (tr : List Ev) (c s : String)
    (h : env.reply tr c = Except.ok s) :
    (pyFloat? s = none →
      queryFloat c env tr = (Except.ok PFloat.nan, tr ++ [Ev.query c])) ∧
    (∀ q : ℚ, pyFloat? s = some q →
      queryFloat c env tr = (Except.ok (PFloat.val q), tr ++ [Ev.query c])) ∧
    pyFloat? "ERR" = none ∧
    pyFloat? "12.345" = some (Rat.divInt 12345 1000) := by
  refine ⟨?_, ?_, by decide, by decide⟩
  · intro hp
    unfold queryFloat
    rw [h]
    simp [hp]
  · intro q hp
    unfold queryFloat
    rw [h]
    simp [hp]

/-- Stub replying `"ERR"` to every query. -/
def errReplyEnv : Env :=
  ⟨fun _ _ => Except.ok "ERR", fun _ _ => Except.ok (),
   Except.ok (0, 0), 0, 0⟩

/-- Stub replying `"12.345"` to every query. -/
def numReplyEnv : Env :=
  ⟨fun _ _ => Except.ok "12.345", fun _ _ => Except.ok (),
   Except.ok (0, 0), 0, 0⟩

/-- Witness for C3: the NaN case on reply `"ERR"` and the exact-value case
on reply `"12.345"`. -/
theorem queryFloat_spec_witness :
    queryFloat "FETC:CC1:ISRC:FRAM:SUMM:EVM:ALL:AVERage?" errReplyEnv [] =
      (Except.ok PFloat.nan,
       [Ev.query "FETC:CC1:ISRC:FRAM:SUMM:EVM:ALL:AVERage?"]) ∧
    queryFloat "FETC:CC1:ISRC:FRAM:SUMM:EVM:ALL:AVERage?" numReplyEnv [] =
      (Except.ok (PFloat.val (Rat.divInt 12345 1000)),
       [Ev.query "FETC:CC1:ISRC:FRAM:SUMM:EVM:ALL:AVERage?"]) :=
  ⟨(queryFloat_spec errReplyEnv [] _ "ERR" rfl).1 (by decide),
   (queryFloat_spec numReplyEnv [] _ "12.345" rfl).2.1 _ (by decide)⟩

/-!  Claim theorems: error propagation (C6) and ACLR parse strictness (C10). -/

/-- Counterexample to C6 as stated: a transport failure raised during the
EVM-fetch sub-step of `perform_iterative_dpd` is recovered locally (inside
`queryFloat`) — the phase call does NOT raise; it completes and returns a
result record with `evm = NaN`. -/
theorem evm_comm_failure_swallowed :
    (perform_iterative_dpd 1 5 false 0 10 ⟨true, true⟩ (some false)
      (some false)
      (failOnEnv "FETC:CC1:ISRC:FRAM:SUMM:EVM:ALL:AVERage?") []).1 =
    Except.ok ⟨PFloat.val (Rat.divInt 100 10), PFloat.nan, Rat.divInt (-50) 10,
      Rat.divInt (-450) 10, Rat.divInt (-460) 10, 0, 0, 0⟩ := by decide

/-- C6 (amended): a transport failure in a direct `instr.query` sub-step is
never recovered locally — it propagates (with its message) and the phase
returns no result — as the ACLR-query failure inside `perform_iterative_dpd`
shows, with the earlier EVM fetch command still issued; but a transport
failure inside a `queryFloat` read is recovered locally into NaN. -/
theorem transport_failure_policy :
    (∀ (env : Env) (tr : List Ev) (c m : String),
      env.reply tr c = Except.error m →
      instrQuery c env tr = (Except.error m, tr ++ [Ev.query c])) ∧
    (∀ (env : Env) (tr : List Ev) (c m : String),
      env.reply tr c = Except.error m →
      queryFloat c env tr = (Except.ok PFloat.nan, tr ++ [Ev.query c])) ∧
    (perform_iterative_dpd 1 5 false 0 10 ⟨true, true⟩ (some false)
        (some false) (failOnEnv "CALC:MARK:FUNC:POW:RES? ACP") []).1 =
      Except.error "InstrumentCommunicationError" ∧
    Ev.query "FETC:CC1:ISRC:FRAM:SUMM:EVM:ALL:AVERage?" ∈
      (perform_iterative_dpd 1 5 false 0 10 ⟨true, true⟩ (some false)
        (some false) (failOnEnv "CALC:MARK:FUNC:POW:RES? ACP") []).2 := by
  refine ⟨?_, ?_, by decide, by decide⟩
  · intro env tr c m h
    unfold instrQuery
    rw [h]
  · intro env tr c m h
    unfold queryFloat
    rw [h]

/-- Witness for C6 (amended): the propagation and the NaN recovery at
concrete failing stubs. -/
theorem transport_failure_policy_witness :
    instrQuery "CALC:MARK:FUNC:POW:RES? ACP"
      (failOnEnv "CALC:MARK:FUNC:POW:RES? ACP") [] =
      (Except.error "InstrumentCommunicationError",
       [Ev.query "CALC:MARK:FUNC:POW:RES? ACP"]) ∧
    queryFloat "FETC:CC1:ISRC:FRAM:SUMM:EVM:ALL:AVERage?"
      (failOnEnv "FETC:CC1:ISRC:FRAM:SUMM:EVM:ALL:AVERage?") [] =
      (Except.ok PFloat.nan,
       [Ev.query "FETC:CC1:ISRC:FRAM:SUMM:EVM:ALL:AVERage?"]) :=
  ⟨transport_failure_policy.1 (failOnEnv "CALC:MARK:FUNC:POW:RES? ACP") []
     "CALC:MARK:FUNC:POW:RES? ACP" "InstrumentCommunicationError" (by decide),
   transport_failure_policy.2.1
     (failOnEnv "FETC:CC1:ISRC:FRAM:SUMM:EVM:ALL:AVERage?") []
     "FETC:CC1:ISRC:FRAM:SUMM:EVM:ALL:AVERage?" "InstrumentCommunicationError"
     (by decide)⟩

/-- C10: in every phase, an ACLR reply that does not parse as at least three
comma-separated numeric fields makes the phase raise (the `float` conversion
or the 3-way unpack fails); NaN substitution applies only to the
single-value `queryFloat` reads.  Stated against the canned stub with an
arbitrary unparsable ACLR reply. -/
theorem aclr_parse_failure_raises : ∀ (sBad : String),
    parseAclr3 sBad = none →
    ((measure_evm 1 false 0 10 ⟨true, true⟩ (some false) (some false)
        (cannedEnv "10.0" "1.23" sBad 0 0 0 0) []).1 =
      Except.error aclrParseMsg) ∧
    ((perform_single_dpd 1 false 0 10 ⟨true, true⟩ (some false) (some false)
        (cannedEnv "10.0" "1.23" sBad 0 0 0 0) []).1 =
      Except.error aclrParseMsg) ∧
    ((perform_iterative_dpd 1 5 false 0 10 ⟨true, true⟩ (some false)
        (some false) (cannedEnv "10.0" "1.23" sBad 0 0 0 0) []).1 =
      Except.error aclrParseMsg) ∧
    ((perform_gmp_dpd 1 5 false 0 10 ⟨true, true⟩ (some false) (some false)
        (cannedEnv "10.0" "1.23" sBad 0 0 0 0) []).1 =
      Except.error aclrParseMsg) ∧
    parseAclr3 "-5.0,-45.0" = none ∧ parseAclr3 "ERR" = none ∧
    parseAclr3 "-5.0,-45.0,-46.0" =
      some (Rat.divInt (-50) 10, Rat.divInt (-450) 10, Rat.divInt (-460) 10) := by
  intro sBad hbad
  refine ⟨?_, ?_, ?_, ?_, by decide, by decide, by decide⟩
  · have heq := @runPhase_to_parse 1 baselineScript false 0 10 ⟨true, true⟩
      (some false) (some false) (cannedEnv "10.0" "1.23" sBad 0 0 0 0)
      _ _ _ _ _ _ _ (0, 0, 0) (PFloat.val (Rat.divInt 100 10))
      (PFloat.val (Rat.divInt 123 100)) sBad rfl rfl rfl rfl rfl rfl rfl
    unfold measure_evm
    rw [heq, hbad]
  · have heq := @runPhase_to_parse 1 singleDpdScript false 0 10 ⟨true, true⟩
      (some false) (some false) (cannedEnv "10.0" "1.23" sBad 0 0 0 0)
      _ _ _ _ _ _ _ (0, 0, 0) (PFloat.val (Rat.divInt 100 10))
      (PFloat.val (Rat.divInt 123 100)) sBad rfl rfl rfl rfl rfl rfl rfl
    unfold perform_single_dpd
    rw [heq, hbad]
  · have heq := @runPhase_to_parse 1 (iterativeDpdScript 5) false 0 10
      ⟨true, true⟩ (some false) (some false)
      (cannedEnv "10.0" "1.23" sBad 0 0 0 0)
      _ _ _ _ _ _ _ (0, 0, 0) (PFloat.val (Rat.divInt 100 10))
      (PFloat.val (Rat.divInt 123 100)) sBad rfl rfl rfl rfl rfl rfl rfl
    unfold perform_iterative_dpd
    rw [heq, hbad]
  · have heq := @runPhase_to_parse 1 (gmpDpdScript 5) false 0 10
      ⟨true, true⟩ (some false) (some false)
      (cannedEnv "10.0" "1.23" sBad 0 0 0 0)
      _ _ _ _ _ _ _ (0, 0, 0) (PFloat.val (Rat.divInt 100 10))
      (PFloat.val (Rat.divInt 123 100)) sBad rfl rfl rfl rfl rfl rfl rfl
    unfold perform_gmp_dpd
    rw [heq, hbad]

/-- Witness for C10 at the unparsable ACLR reply `"ERR"`. -/
theorem aclr_parse_failure_raises_witness :
    (measure_evm 1 false 0 10 ⟨true, true⟩ (some false) (some false)
      (cannedEnv "10.0" "1.23" "ERR" 0 0 0 0) []).1 =
    Except.error aclrParseMsg :=
  (aclr_parse_failure_raises "ERR" (by decide)).1

/-!  Claim theorem: canned round-trip (C4). -/

/-- The stub instrument of the round-trip scenario: power=10.0, EVM=1.23,
ACLR list "-5.0,-45.0,-46.0". -/
def roundtripEnv : Env := cannedEnv "10.0" "1.23" "-5.0,-45.0,-46.0" 0 0 0 0

/-- C4: each phase, run against the fully-stubbed instrument with the canned
replies and both servos disabled, returns exactly the canned values in its
measurement fields and `servo_iterations = 0` (both servo times 0.0); in
particular the baseline scenario returns output power 10.0, EVM 1.23,
channel power -5.0, adjacent lower -45.0, adjacent upper -46.0. -/
theorem canned_roundtrip :
    ((measure_evm 1 false 0 10 ⟨true, true⟩ (some false) (some false)
        roundtripEnv []).1 =
      Except.ok ⟨PFloat.val 10, PFloat.val (Rat.divInt 123 100), -5, -45, -46,
        0, 0, 0⟩) ∧
    ((perform_single_dpd 1 false 0 10 ⟨true, true⟩ (some false) (some false)
        roundtripEnv []).1 =
      Except.ok ⟨PFloat.val 10, PFloat.val (Rat.divInt 123 100), -5, -45, -46,
        0, 0, 0⟩) ∧
    ((perform_iterative_dpd 1 5 false 0 10 ⟨true, true⟩ (some false)
        (some false) roundtripEnv []).1 =
      Except.ok ⟨PFloat.val 10, PFloat.val (Rat.divInt 123 100), -5, -45, -46,
        0, 0, 0⟩) ∧
    ((perform_gmp_dpd 1 5 false 0 10 ⟨true, true⟩ (some false) (some false)
        roundtripEnv []).1 =
      Except.ok ⟨PFloat.val 10, PFloat.val (Rat.divInt 123 100), -5, -45, -46,
        0, 0, 0⟩) :=
  ⟨by decide, by decide, by decide, by decide⟩

/-!  Claim theorems: servo behaviour (C7, C8). -/

/-- The interpolated DDPD count command carries neither the K18 servo start
command nor the K18 context-selection query. -/
theorem no_ev_coun_pser (inner : String) :
    Ev.query ":SENS:PSER:STAR; *OPC?" ∉
      actEvs (Act.q (":CONF:DDPD:COUN " ++ inner ++ "; *OPC?")) := by
  simp only [actEvs, List.mem_singleton]
  intro hx
  injection hx with hs
  exact (counCmd_ne inner).1 hs.symm

theorem no_ev_coun_k18sel (inner : String) :
    Ev.query "INST:SEL \"Amplifier\"; *OPC?" ∉
      actEvs (Act.q (":CONF:DDPD:COUN " ++ inner ++ "; *OPC?")) := by
  simp only [actEvs, List.mem_singleton]
  intro hx
  injection hx with hs
  exact (counCmd_ne inner).2 hs.symm

/-- The `pre` script of the iterative-DPD phase, split around the
interpolated iteration-count command. -/
theorem iter_pre_split (n : Nat) : (iterativeDpdScript n).pre =
    [Act.opc "INST:SEL \"Amplifier\"",
     Act.q "CONF:GEN:CONN:STAT ON; *OPC?",
     Act.q "CONF:GEN:CONT:STAT ON; *OPC?",
     Act.q "CONF:SETT; *OPC?",
     Act.q ":CONF:REFS:CGW:READ; *OPC?",
     Act.q "CONF:DDPD:STAT ON; *OPC?",
     Act.q "CONF:DDPD:TRAD 100; *OPC?"] ++
    [Act.q (":CONF:DDPD:COUN " ++ toString n ++ "; *OPC?")] ++
    [Act.q ":CONF:DDPD:STAR; *OPC?"] := rfl

/-- The `pre` script of the GMP-DPD phase, split around the interpolated
iteration-count command. -/
theorem gmp_pre_split (n : Nat) : (gmpDpdScript n).pre =
    [Act.opc "INST:SEL \"Amplifier\"",
     Act.q "CONF:GEN:CONN:STAT ON; *OPC?",
     Act.q "CONF:GEN:CONT:STAT ON; *OPC?",
     Act.q "CONF:SETT; *OPC?",
     Act.q ":CONF:REFS:CGW:READ; *OPC?",
     Act.opc "INST:SEL \"Amplifier\"",
     Act.q "CONF:DDPD:STAT ON; *OPC?",
     Act.q "CONF:DDPD:TRAD 100; *OPC?"] ++
    [Act.q (":CONF:DDPD:COUN " ++ toString n ++ "; *OPC?")] ++
    [Act.q ":CONF:DDPD:STAR; *OPC?",
     Act.q "CONF:MDPD:STAT ON; *OPC?",
     Act.q "CALC:MDPD:MOD;*OPC?",
     Act.q "CONF:GMP:LAG:ORD:XTER 1;*OPC?",
     Act.q "CONF:GMP:LEAD:ORD:XTER 1;*OPC?",
     Act.q "CONF:MDPD:ITER 5;*OPC?",
     Act.q ":CALC:MDPD:MOD;*OPC?",
     Act.q ":CONF:MDPD:WAV:UPD;*OPC?",
     Act.q "CONF:MDPD:WAV:SEL MDPD;*OPC?",
     Act.q "CONF:GEN:CONT:STAT OFF; *OPC?",
     Act.q "CONF:GEN:CONN:STAT OFF; *OPC?"] := rfl

/-- Assemble an event-absence fact over a script split around one action. -/
theorem no_ev_split {e : Ev} {A B : List Act} {cAct : Act}
    (hA : ∀ a ∈ A, e ∉ actEvs a) (hc : e ∉ actEvs cAct)
    (hB : ∀ a ∈ B, e ∉ actEvs a) :
    ∀ a ∈ A ++ [cAct] ++ B, e ∉ actEvs a := by
  intro a ha
  rcases List.mem_append.mp ha with h | h
  · rcases List.mem_append.mp h with h2 | h2
    · exact hA a h2
    · simp at h2
      subst h2
      exact hc
  · exact hB a h

/-- Core of C7 at the shared runner level: with both servo flags resolved
false, a successful phase reports zero servo iterations and zero servo
times, calls no external regulator and issues no K18 servo start command. -/
theorem runPhase_no_servo {fuel : Nat} {s : PhaseScript} {hasReg : Bool}
    {target : ℚ} {maxIter : Nat} {dflts : ServoDefaults}
    {psa k18a : Option Bool} {env : Env} {r : PhaseResult}
    (hps : resolveServoFlag psa dflts.usePowerServo = false)
    (hk : resolveServoFlag k18a dflts.useK18PowerServo = false)
    (hpre : ∀ a ∈ s.pre, Ev.query ":SENS:PSER:STAR; *OPC?" ∉ actEvs a)
    (hmid : ∀ a ∈ s.mid, Ev.query ":SENS:PSER:STAR; *OPC?" ∉ actEvs a)
    (hpa : ∀ a ∈ s.preAclr, Ev.query ":SENS:PSER:STAR; *OPC?" ∉ actEvs a)
    (hpost : ∀ a ∈ s.post, Ev.query ":SENS:PSER:STAR; *OPC?" ∉ actEvs a)
    (hc1 : s.powerCmd ≠ ":SENS:PSER:STAR; *OPC?")
    (hc2 : s.evmCmd ≠ ":SENS:PSER:STAR; *OPC?")
    (hc3 : s.aclrCmd ≠ ":SENS:PSER:STAR; *OPC?")
    (h : (runPhase fuel s hasReg target maxIter dflts psa k18a env []).1 =
      Except.ok r) :
    r.servoLoops = 0 ∧ r.extServoTime = 0 ∧ r.k18Time = 0 ∧
    Ev.regulateCall ∉
      (runPhase fuel s hasReg target maxIter dflts psa k18a env []).2 ∧
    Ev.query ":SENS:PSER:STAR; *OPC?" ∉
      (runPhase fuel s hasReg target maxIter dflts psa k18a env []).2 := by
  have hfull := pairOfFst h
  obtain ⟨l1, l2, l3, l4, ht1, ht2, ht3, ht4, htr, hPS, hK⟩ := runPhase_ok hfull
  rw [hps] at htr hPS
  rw [hk] at htr hK
  simp only [Bool.false_and, Bool.false_eq_true, if_false] at htr hPS hK
  have hsrv : servoEvs false false target maxIter = [] := by
    simp [servoEvs]
  rw [hsrv] at htr
  refine ⟨hPS.1, hPS.2, hK, ?_, ?_⟩
  · rw [htr]
    intro hmem
    simp only [List.append_nil, List.mem_append, List.mem_cons,
      List.mem_singleton, List.not_mem_nil, or_false] at hmem
    rcases hmem with ((((hm | hm) | hm) | hm) | hm) | hm
    · exact actsTrace_no_reg ht1 hm
    · exact actsTrace_no_reg ht2 hm
    · rcases hm with hm | hm
      · cases hm
      · cases hm
    · exact actsTrace_no_reg ht3 hm
    · cases hm
    · exact actsTrace_no_reg ht4 hm
  · rw [htr]
    intro hmem
    simp only [List.append_nil, List.mem_append, List.mem_cons,
      List.mem_singleton, List.not_mem_nil, or_false] at hmem
    have hblock : ∀ {as : List Act} {l : List Ev}, ActsTrace as l →
        (∀ a ∈ as, Ev.query ":SENS:PSER:STAR; *OPC?" ∉ actEvs a) →
        Ev.query ":SENS:PSER:STAR; *OPC?" ∉ l := by
      intro as l hts hno hmem2
      rcases actsTrace_mem hts hmem2 with ⟨a, ha, hea⟩ | h2 | h2
      · exact hno a ha hea
      · injection h2 with hs
        exact absurd hs (by decide)
      · cases h2
    rcases hmem with ((((hm | hm) | hm) | hm) | hm) | hm
    · exact hblock ht1 hpre hm
    · exact hblock ht2 hmid hm
    · rcases hm with hm | hm
      · injection hm with hs
        exact hc1 hs.symm
      · injection hm with hs
        exact hc2 hs.symm
    · exact hblock ht3 hpa hm
    · injection hm with hs
      exact hc3 hs.symm
    · exact hblock ht4 hpost hm

/-- The `n`-independent script fields of the iterative-DPD phase. -/
theorem iter_mid_eq (n : Nat) : (iterativeDpdScript n).mid =
    [Act.q "INST:SEL \"5G NR\"; *OPC?", Act.q "CONF:NR5G:MEAS EVM; *OPC?",
     Act.q "INIT:IMM; *OPC?", Act.q "INIT:IMM; *OPC?"] := rfl

theorem iter_preAclr_eq (n : Nat) : (iterativeDpdScript n).preAclr =
    [Act.q "CONF:NR5G:MEAS ACLR; *OPC?", Act.q "INIT:IMM;*OPC?"] := rfl

theorem iter_post_eq (n : Nat) : (iterativeDpdScript n).post =
    [Act.q ":CONF:DDPD:STAT OFF; *OPC?", Act.q "CONF:GEN:CONT:STAT OFF; *OPC?",
     Act.q "CONF:GEN:CONN:STAT OFF; *OPC?"] := rfl

theorem iter_cmds_eq (n : Nat) :
    (iterativeDpdScript n).powerCmd = "FETC:CC1:ISRC:FRAM:SUMM:POW:AVERage?" ∧
    (iterativeDpdScript n).evmCmd =
      "FETC:CC1:ISRC:FRAM:SUMM:EVM:ALL:AVERage?" ∧
    (iterativeDpdScript n).aclrCmd = "CALC:MARK:FUNC:POW:RES? ACP" :=
  ⟨rfl, rfl, rfl⟩

/-- The `n`-independent script fields of the GMP-DPD phase. -/
theorem gmp_mid_eq (n : Nat) : (gmpDpdScript n).mid =
    [Act.q "INST:SEL \"5G NR\"; *OPC?", Act.q "CONF:NR5G:MEAS EVM; *OPC?",
     Act.q "INIT:IMM; *OPC?"] := rfl

theorem gmp_preAclr_eq (n : Nat) : (gmpDpdScript n).preAclr =
    [Act.w "CONF:NR5G:MEAS ACLR", Act.w "INIT:IMM;*WAI"] := rfl

theorem gmp_post_eq (n : Nat) : (gmpDpdScript n).post =
    [Act.q ":INST:SEL \"Amplifier\"; *OPC?",
     Act.q ":CONF:MDPD:WAV:SEL REF; *OPC?",
     Act.q ":CONF:DDPD:APPL:STAT OFF; *OPC?",
     Act.q ":INST:SEL \"5G NR\"; *OPC?",
     Act.q ":CONF:NR5G:MEAS EVM; *OPC?",
     Act.q ":CONF:NR5G:DL:CC1:RFUC:STAT OFF; *OPC?",
     Act.q "CONF:GEN:CONT:STAT OFF; *OPC?",
     Act.q "CONF:GEN:CONN:STAT OFF; *OPC?"] := rfl

theorem gmp_cmds_eq (n : Nat) :
    (gmpDpdScript n).powerCmd = "FETC:CC1:ISRC:FRAM:SUMM:POW:AVERage?" ∧
    (gmpDpdScript n).evmCmd = "FETC:CC1:ISRC:FRAM:SUMM:EVM:ALL:AVERage?" ∧
    (gmpDpdScript n).aclrCmd = "CALC:MARK:FUNC:POW:RES? ACP" :=
  ⟨rfl, rfl, rfl⟩

/-- C7: in every phase, when both servo flags resolve false the returned
record reports `servo_iterations = 0` and both servo-time fields `0.0`, and
the phase makes no external-regulator call and issues no K18 servo start
command. -/
theorem servo_disabled_zero : ∀ (env : Env) (fuel : Nat) (hasReg : Bool)
    (target : ℚ) (maxIter n : Nat) (dflts : ServoDefaults)
    (psa k18a : Option Bool),
    resolveServoFlag psa dflts.usePowerServo = false →
    resolveServoFlag k18a dflts.useK18PowerServo = false →
    (∀ r, (measure_evm fuel hasReg target maxIter dflts psa k18a env []).1 =
        Except.ok r →
      r.servoLoops = 0 ∧ r.extServoTime = 0 ∧ r.k18Time = 0 ∧
      Ev.regulateCall ∉
        (measure_evm fuel hasReg target maxIter dflts psa k18a env []).2 ∧
      Ev.query ":SENS:PSER:STAR; *OPC?" ∉
        (measure_evm fuel hasReg target maxIter dflts psa k18a env []).2) ∧
    (∀ r, (perform_single_dpd fuel hasReg target maxIter dflts psa k18a
        env []).1 = Except.ok r →
      r.servoLoops = 0 ∧ r.extServoTime = 0 ∧ r.k18Time = 0 ∧
      Ev.regulateCall ∉
        (perform_single_dpd fuel hasReg target maxIter dflts psa k18a env []).2 ∧
      Ev.query ":SENS:PSER:STAR; *OPC?" ∉
        (perform_single_dpd fuel hasReg target maxIter dflts psa k18a
          env []).2) ∧
    (∀ r, (perform_iterative_dpd fuel n hasReg target maxIter dflts psa k18a
        env []).1 = Except.ok r →
      r.servoLoops = 0 ∧ r.extServoTime = 0 ∧ r.k18Time = 0 ∧
      Ev.regulateCall ∉
        (perform_iterative_dpd fuel n hasReg target maxIter dflts psa k18a
          env []).2 ∧
      Ev.query ":SENS:PSER:STAR; *OPC?" ∉
        (perform_iterative_dpd fuel n hasReg target maxIter dflts psa k18a
          env []).2) ∧
    (∀ r, (perform_gmp_dpd fuel n hasReg target maxIter dflts psa k18a
        env []).1 = Except.ok r →
      r.servoLoops = 0 ∧ r.extServoTime = 0 ∧ r.k18Time = 0 ∧
      Ev.regulateCall ∉
        (perform_gmp_dpd fuel n hasReg target maxIter dflts psa k18a env []).2 ∧
      Ev.query ":SENS:PSER:STAR; *OPC?" ∉
        (perform_gmp_dpd fuel n hasReg target maxIter dflts psa k18a
          env []).2) := by
  intro env fuel hasReg target maxIter n dflts psa k18a hps hk
  refine ⟨?_, ?_, ?_, ?_⟩
  · intro r h
    exact runPhase_no_servo hps hk (by decide) (by decide) (by decide)
      (by decide) (by decide) (by decide) (by decide) h
  · intro r h
    exact runPhase_no_servo hps hk (by decide) (by decide) (by decide)
      (by decide) (by decide) (by decide) (by decide) h
  · intro r h
    refine runPhase_no_servo hps hk ?_ (by rw [iter_mid_eq n]; decide)
      (by rw [iter_preAclr_eq n]; decide) (by rw [iter_post_eq n]; decide)
      (by rw [(iter_cmds_eq n).1]; decide) (by rw [(iter_cmds_eq n).2.1]; decide)
      (by rw [(iter_cmds_eq n).2.2]; decide) h
    rw [iter_pre_split n]
    exact no_ev_split (by decide) (no_ev_coun_pser (toString n)) (by decide)
  · intro r h
    refine runPhase_no_servo hps hk ?_ (by rw [gmp_mid_eq n]; decide)
      (by rw [gmp_preAclr_eq n]; decide) (by rw [gmp_post_eq n]; decide)
      (by rw [(gmp_cmds_eq n).1]; decide) (by rw [(gmp_cmds_eq n).2.1]; decide)
      (by rw [(gmp_cmds_eq n).2.2]; decide) h
    rw [gmp_pre_split n]
    exact no_ev_split (by decide) (no_ev_coun_pser (toString n)) (by decide)

/-- Witness for C7 on the canned stub with both flags explicitly false. -/
theorem servo_disabled_zero_witness :
    Ev.regulateCall ∉
      (measure_evm 1 false 0 10 ⟨true, true⟩ (some false) (some false)
        roundtripEnv []).2 ∧
    Ev.query ":SENS:PSER:STAR; *OPC?" ∉
      (measure_evm 1 false 0 10 ⟨true, true⟩ (some false) (some false)
        roundtripEnv []).2 := by
  have h := (servo_disabled_zero roundtripEnv 1 false 0 10 5 ⟨true, true⟩
    (some false) (some false) (by decide) (by decide)).1
    ⟨PFloat.val 10, PFloat.val (Rat.divInt 123 100), -5, -45, -46, 0, 0, 0⟩
    (by decide)
  exact ⟨h.2.2.2.1, h.2.2.2.2⟩

/-- Core of C8 at the shared runner level: with both servo flags resolved
true and a regulator supplied, the external regulate call happens strictly
before the first K18 servo command, and the two servos' iteration count and
elapsed times land in separate result fields (never summed). -/
theorem runPhase_servo_order {fuel : Nat} {s : PhaseScript} {hasReg : Bool}
    {target : ℚ} {maxIter : Nat} {dflts : ServoDefaults}
    {psa k18a : Option Bool} {env : Env} {r : PhaseResult}
    (hps : resolveServoFlag psa dflts.usePowerServo = true)
    (hreg : hasReg = true)
    (hk : resolveServoFlag k18a dflts.useK18PowerServo = true)
    (hpre : ∀ a ∈ s.pre, Ev.query "INST:SEL \"Amplifier\"; *OPC?" ∉ actEvs a)
    (h : (runPhase fuel s hasReg target maxIter dflts psa k18a env []).1 =
      Except.ok r) :
    (∃ x y, (runPhase fuel s hasReg target maxIter dflts psa k18a env []).2 =
        x ++ Ev.regulateCall :: y ∧
      Ev.regulateCall ∉ x ∧
      Ev.query "INST:SEL \"Amplifier\"; *OPC?" ∉ x ∧
      Ev.query "INST:SEL \"Amplifier\"; *OPC?" ∈ y) ∧
    (∃ settle, env.regulate = Except.ok (r.servoLoops, settle)) ∧
    r.extServoTime = env.regElapsed ∧ r.k18Time = env.k18Elapsed := by
  have hfull := pairOfFst h
  obtain ⟨l1, l2, l3, l4, ht1, ht2, ht3, ht4, htr, hPS, hK⟩ := runPhase_ok hfull
  subst hreg
  rw [hps] at htr hPS
  rw [hk] at htr hK
  simp only [Bool.true_and, if_true] at htr hPS hK
  have hsrv : servoEvs true true target maxIter =
      Ev.regulateCall :: expandActs (k18Acts target maxIter) := by
    simp [servoEvs]
  rw [hsrv] at htr
  refine ⟨⟨l1, expandActs (k18Acts target maxIter) ++ l2 ++
      [Ev.query s.powerCmd, Ev.query s.evmCmd] ++ l3 ++
      [Ev.query s.aclrCmd] ++ l4, ?_, actsTrace_no_reg ht1, ?_, ?_⟩,
    hPS.1, hPS.2, hK⟩
  · rw [htr]
    simp
  · intro hmem
    rcases actsTrace_mem ht1 hmem with ⟨a, ha, hea⟩ | h2 | h2
    · exact hpre a ha hea
    · injection h2 with hs
      exact absurd hs (by decide)
    · cases h2
  · apply List.mem_append_left
    apply List.mem_append_left
    apply List.mem_append_left
    apply List.mem_append_left
    exact List.mem_append_left _ (by
      show Ev.query "INST:SEL \"Amplifier\"; *OPC?" ∈
        expandActs (k18Acts target maxIter)
      show Ev.query "INST:SEL \"Amplifier\"; *OPC?" ∈
        [Ev.query "INST:SEL \"Amplifier\"; *OPC?"] ++
          expandActs (k18Acts target maxIter).tail
      exact List.mem_append_left _ (List.mem_singleton.mpr rfl))

/-- C8: in every phase, when both servo flags resolve true and an external
regulator is supplied, the external regulate call is made strictly before
the first internal (K18) servo command, and the iteration count and the two
elapsed times are reported in separate result fields, never summed. -/
theorem servo_order_ext_first : ∀ (env : Env) (fuel : Nat) (hasReg : Bool)
    (target : ℚ) (maxIter n : Nat) (dflts : ServoDefaults)
    (psa k18a : Option Bool),
    resolveServoFlag psa dflts.usePowerServo = true →
    hasReg = true →
    resolveServoFlag k18a dflts.useK18PowerServo = true →
    (∀ r, (measure_evm fuel hasReg target maxIter dflts psa k18a env []).1 =
        Except.ok r →
      (∃ x y, (measure_evm fuel hasReg target maxIter dflts psa k18a
          env []).2 = x ++ Ev.regulateCall :: y ∧
        Ev.regulateCall ∉ x ∧
        Ev.query "INST:SEL \"Amplifier\"; *OPC?" ∉ x ∧
        Ev.query "INST:SEL \"Amplifier\"; *OPC?" ∈ y) ∧
      (∃ settle, env.regulate = Except.ok (r.servoLoops, settle)) ∧
      r.extServoTime = env.regElapsed ∧ r.k18Time = env.k18Elapsed) ∧
    (∀ r, (perform_single_dpd fuel hasReg target maxIter dflts psa k18a
        env []).1 = Except.ok r →
      (∃ x y, (perform_single_dpd fuel hasReg target maxIter dflts psa k18a
          env []).2 = x ++ Ev.regulateCall :: y ∧
        Ev.regulateCall ∉ x ∧
        Ev.query "INST:SEL \"Amplifier\"; *OPC?" ∉ x ∧
        Ev.query "INST:SEL \"Amplifier\"; *OPC?" ∈ y) ∧
      (∃ settle, env.regulate = Except.ok (r.servoLoops, settle)) ∧
      r.extServoTime = env.regElapsed ∧ r.k18Time = env.k18Elapsed) ∧
    (∀ r, (perform_iterative_dpd fuel n hasReg target maxIter dflts psa k18a
        env []).1 = Except.ok r →
      (∃ x y, (perform_iterative_dpd fuel n hasReg target maxIter dflts psa
          k18a env []).2 = x ++ Ev.regulateCall :: y ∧
        Ev.regulateCall ∉ x ∧
        Ev.query "INST:SEL \"Amplifier\"; *OPC?" ∉ x ∧
        Ev.query "INST:SEL \"Amplifier\"; *OPC?" ∈ y) ∧
      (∃ settle, env.regulate = Except.ok (r.servoLoops, settle)) ∧
      r.extServoTime = env.regElapsed ∧ r.k18Time = env.k18Elapsed) ∧
    (∀ r, (perform_gmp_dpd fuel n hasReg target maxIter dflts psa k18a
        env []).1 = Except.ok r →
      (∃ x y, (perform_gmp_dpd fuel n hasReg target maxIter dflts psa k18a
          env []).2 = x ++ Ev.regulateCall :: y ∧
        Ev.regulateCall ∉ x ∧
        Ev.query "INST:SEL \"Amplifier\"; *OPC?" ∉ x ∧
        Ev.query "INST:SEL \"Amplifier\"; *OPC?" ∈ y) ∧
      (∃ settle, env.regulate = Except.ok (r.servoLoops, settle)) ∧
      r.extServoTime = env.regElapsed ∧ r.k18Time = env.k18Elapsed) := by
  intro env fuel hasReg target maxIter n dflts psa k18a hps hreg hk
  refine ⟨?_, ?_, ?_, ?_⟩
  · intro r h
    exact runPhase_servo_order hps hreg hk (by decide) h
  · intro r h
    exact runPhase_servo_order hps hreg hk (by decide) h
  · intro r h
    refine runPhase_servo_order hps hreg hk ?_ h
    rw [iter_pre_split n]
    exact no_ev_split (by decide) (no_ev_coun_k18sel (toString n)) (by decide)
  · intro r h
    refine runPhase_servo_order hps hreg hk ?_ h
    rw [gmp_pre_split n]
    exact no_ev_split (by decide) (no_ev_coun_k18sel (toString n)) (by decide)

/-- Stub for the both-servos-enabled scenario: external regulator reports
3 iterations, elapsed times are distinguishable. -/
def bothServoEnv : Env :=
  cannedEnv "10.0" "1.23" "-5.0,-45.0,-46.0" 3 (Rat.divInt 1 2)
    (Rat.divInt 7 10) (Rat.divInt 9 10)

/-- Witness for C8 on the canned stub with both servos enabled. -/
theorem servo_order_ext_first_witness :
    (∃ x y, (measure_evm 1 true 0 10 ⟨true, true⟩ (some true) (some true)
        bothServoEnv []).2 = x ++ Ev.regulateCall :: y ∧
      Ev.regulateCall ∉ x ∧
      Ev.query "INST:SEL \"Amplifier\"; *OPC?" ∉ x ∧
      Ev.query "INST:SEL \"Amplifier\"; *OPC?" ∈ y) ∧
    (∃ settle, bothServoEnv.regulate = Except.ok (3, settle)) ∧
    (Rat.divInt 7 10) = bothServoEnv.regElapsed ∧
    (Rat.divInt 9 10) = bothServoEnv.k18Elapsed := by
  have h := (servo_order_ext_first bothServoEnv 1 true 0 10 5 ⟨true, true⟩
    (some true) (some true) (by decide) rfl (by decide)).1
    ⟨PFloat.val 10, PFloat.val (Rat.divInt 123 100), -5, -45, -46, 3,
      Rat.divInt 7 10, Rat.divInt 9 10⟩
    (by decide)
  exact h

/-!  Claim C1: the NR/EVM home-state at phase completion.  The helper lemmas
below characterise, for each phase and any environment in which it completes
successfully, the last context-selection command and the last
measurement-type command of its trace. -/

theorem lastCmds_baseline : ∀ (env : Env) (fuel : Nat) (hasReg : Bool)
    (target : ℚ) (maxIter : Nat) (dflts : ServoDefaults)
    (psa k18a : Option Bool) (r : PhaseResult),
    (measure_evm fuel hasReg target maxIter dflts psa k18a env []).1 =
      Except.ok r →
    LastEv isCtxSel selsNR
      (measure_evm fuel hasReg target maxIter dflts psa k18a env []).2 ∧
    LastEv isMeasSet setsEVM
      (measure_evm fuel hasReg target maxIter dflts psa k18a env []).2 := by
  intro env fuel hasReg target maxIter dflts psa k18a r h
  have hfull := pairOfFst h
  obtain ⟨l1, l2, l3, l4, ht1, ht2, ht3, ht4, htr, -, -⟩ := runPhase_ok hfull
  have hl2 : l2 = expandActs baselineScript.mid :=
    actsTrace_noOpc_eq ht2 (by intro c hc; simp [baselineScript] at hc)
  have hl3 : l3 = expandActs baselineScript.preAclr :=
    actsTrace_noOpc_eq ht3 (by intro c hc; simp [baselineScript] at hc)
  have hl4 : l4 = expandActs baselineScript.post :=
    actsTrace_noOpc_eq ht4 (by intro c hc; simp [baselineScript] at hc)
  rw [hl2, hl3, hl4] at htr
  constructor
  · refine ⟨l1 ++ servoEvs (resolveServoFlag psa dflts.usePowerServo && hasReg)
        (resolveServoFlag k18a dflts.useK18PowerServo) target maxIter,
      Ev.query ":INST:SEL \"5G NR\"; *OPC?",
      [Ev.query "INIT:IMM; *OPC?",
       Ev.query "FETC:CC1:ISRC:FRAM:SUMM:POW:AVERage?",
       Ev.query "FETC:CC1:ISRC:FRAM:SUMM:EVM:ALL:AVERage?",
       Ev.write "CONF:NR5G:MEAS ACLR", Ev.write "INIT:IMM;*WAI",
       Ev.query "CALC:MARK:FUNC:POW:RES? ACP",
       Ev.write "CONF:NR5G:MEAS EVM"], ?_, by decide, by decide⟩
    rw [htr]
    simp [baselineScript, expandActs, actEvs]
  · refine ⟨l1 ++ servoEvs (resolveServoFlag psa dflts.usePowerServo && hasReg)
        (resolveServoFlag k18a dflts.useK18PowerServo) target maxIter ++
      [Ev.query ":INST:SEL \"5G NR\"; *OPC?", Ev.query "INIT:IMM; *OPC?",
       Ev.query "FETC:CC1:ISRC:FRAM:SUMM:POW:AVERage?",
       Ev.query "FETC:CC1:ISRC:FRAM:SUMM:EVM:ALL:AVERage?",
       Ev.write "CONF:NR5G:MEAS ACLR", Ev.write "INIT:IMM;*WAI",
       Ev.query "CALC:MARK:FUNC:POW:RES? ACP"],
      Ev.write "CONF:NR5G:MEAS EVM", [], ?_, by decide, by decide⟩
    rw [htr]
    simp [baselineScript, expandActs, actEvs]

theorem noP_append {P : Ev → Bool} {a b : List Ev}
    (ha : ∀ f ∈ a, P f = false) (hb : ∀ f ∈ b, P f = false) :
    ∀ f ∈ a ++ b, P f = false := by
  intro f hf
  rcases List.mem_append.mp hf with h | h
  · exact ha f h
  · exact hb f h

theorem noP_onlyEsr {P : Ev → Bool} (hE : P (Ev.query "*ESR?") = false)
    (hS : P (Ev.sleepMs 200) = false) {l : List Ev} (h : OnlyEsr l) :
    ∀ f ∈ l, P f = false := by
  intro f hf
  rcases h f hf with rfl | rfl
  · exact hE
  · exact hS

theorem lastCmds_single : ∀ (env : Env) (fuel : Nat) (hasReg : Bool)
    (target : ℚ) (maxIter : Nat) (dflts : ServoDefaults)
    (psa k18a : Option Bool) (r : PhaseResult),
    (perform_single_dpd fuel hasReg target maxIter dflts psa k18a env []).1 =
      Except.ok r →
    LastEv isCtxSel selsNR
      (perform_single_dpd fuel hasReg target maxIter dflts psa k18a env []).2 ∧
    LastEv isMeasSet setsACLR
      (perform_single_dpd fuel hasReg target maxIter dflts psa k18a env []).2 := by
  intro env fuel hasReg target maxIter dflts psa k18a r h
  have hfull := pairOfFst h
  obtain ⟨l1, l2, l3, l4, ht1, ht2, ht3, ht4, htr, -, -⟩ := runPhase_ok hfull
  have hl2 : l2 = expandActs singleDpdScript.mid :=
    actsTrace_noOpc_eq ht2 (by intro c hc; simp [singleDpdScript] at hc)
  have hl3 : l3 = expandActs singleDpdScript.preAclr :=
    actsTrace_noOpc_eq ht3 (by intro c hc; simp [singleDpdScript] at hc)
  rw [hl2, hl3] at htr
  cases ht4 with
  | cons ha1 h4b =>
  cases h4b with
  | cons ha2 h4c =>
  cases h4c with
  | cons ha3 h4d =>
  cases h4d with
  | cons ha4 h4e =>
  cases h4e
  cases ha1 with
  | opc c1 lesr hesr =>
  cases ha2 with
  | q c2 =>
  cases ha3 with
  | q c3 =>
  cases ha4 with
  | q c4 =>
  constructor
  · refine ⟨l1 ++ servoEvs (resolveServoFlag psa dflts.usePowerServo && hasReg)
        (resolveServoFlag k18a dflts.useK18PowerServo) target maxIter ++
      expandActs singleDpdScript.mid ++
      [Ev.query "FETC:CC1:ISRC:FRAM:SUMM:POW:AVERage?",
       Ev.query "FETC:CC1:ISRC:FRAM:SUMM:EVM:ALL:AVERage?"] ++
      expandActs singleDpdScript.preAclr ++
      [Ev.query "CALC:MARK:FUNC:POW:RES? ACP"] ++
      ([Ev.write "*ESE 1", Ev.write "*SRE 32",
        Ev.write ("INST:SEL \"Amplifier\"" ++ ";*OPC")] ++ lesr) ++
      [Ev.query "CONF:DPD:AMAM:STAT OF; *OPC?",
       Ev.query "CONF:DPD:AMPM:STAT OF; *OPC?"],
      Ev.query "INST:SEL \"5G NR\"; *OPC?", [], ?_, by decide,
      by intro f hf; cases hf⟩
    rw [htr]
    simp [singleDpdScript, expandActs, actEvs]
  · refine ⟨l1 ++ servoEvs (resolveServoFlag psa dflts.usePowerServo && hasReg)
        (resolveServoFlag k18a dflts.useK18PowerServo) target maxIter ++
      expandActs singleDpdScript.mid ++
      [Ev.query "FETC:CC1:ISRC:FRAM:SUMM:POW:AVERage?",
       Ev.query "FETC:CC1:ISRC:FRAM:SUMM:EVM:ALL:AVERage?"],
      Ev.query "CONF:NR5G:MEAS ACLR; *OPC?",
      [Ev.query "INIT:IMM;*OPC?",
       Ev.query "CALC:MARK:FUNC:POW:RES? ACP"] ++
      (([Ev.write "*ESE 1", Ev.write "*SRE 32",
         Ev.write ("INST:SEL \"Amplifier\"" ++ ";*OPC")] ++ lesr) ++
       [Ev.query "CONF:DPD:AMAM:STAT OF; *OPC?",
        Ev.query "CONF:DPD:AMPM:STAT OF; *OPC?",
        Ev.query "INST:SEL \"5G NR\"; *OPC?"]), ?_, by decide, ?_⟩
    · rw [htr]
      simp [singleDpdScript, expandActs, actEvs]
    · exact noP_append (by decide)
        (noP_append
          (noP_append (by decide)
            (noP_onlyEsr (by decide) (by decide) hesr))
          (by decide))

theorem lastCmds_iter : ∀ (env : Env) (fuel n : Nat) (hasReg : Bool)
    (target : ℚ) (maxIter : Nat) (dflts : ServoDefaults)
    (psa k18a : Option Bool) (r : PhaseResult),
    (perform_iterative_dpd fuel n hasReg target maxIter dflts psa k18a
      env []).1 = Except.ok r →
    LastEv isCtxSel selsNR
      (perform_iterative_dpd fuel n hasReg target maxIter dflts psa k18a
        env []).2 ∧
    LastEv isMeasSet setsACLR
      (perform_iterative_dpd fuel n hasReg target maxIter dflts psa k18a
        env []).2 := by
  intro env fuel n hasReg target maxIter dflts psa k18a r h
  have hfull := pairOfFst h
  obtain ⟨l1, l2, l3, l4, ht1, ht2, ht3, ht4, htr, -, -⟩ := runPhase_ok hfull
  have hl2 : l2 = expandActs (iterativeDpdScript n).mid :=
    actsTrace_noOpc_eq ht2
      (by intro c hc; rw [iter_mid_eq n] at hc; simp at hc)
  have hl3 : l3 = expandActs (iterativeDpdScript n).preAclr :=
    actsTrace_noOpc_eq ht3
      (by intro c hc; rw [iter_preAclr_eq n] at hc; simp at hc)
  have hl4 : l4 = expandActs (iterativeDpdScript n).post :=
    actsTrace_noOpc_eq ht4
      (by intro c hc; rw [iter_post_eq n] at hc; simp at hc)
  rw [hl2, hl3, hl4] at htr
  constructor
  · refine ⟨l1 ++ servoEvs (resolveServoFlag psa dflts.usePowerServo && hasReg)
        (resolveServoFlag k18a dflts.useK18PowerServo) target maxIter,
      Ev.query "INST:SEL \"5G NR\"; *OPC?",
      [Ev.query "CONF:NR5G:MEAS EVM; *OPC?", Ev.query "INIT:IMM; *OPC?",
       Ev.query "INIT:IMM; *OPC?",
       Ev.query "FETC:CC1:ISRC:FRAM:SUMM:POW:AVERage?",
       Ev.query "FETC:CC1:ISRC:FRAM:SUMM:EVM:ALL:AVERage?",
       Ev.query "CONF:NR5G:MEAS ACLR; *OPC?", Ev.query "INIT:IMM;*OPC?",
       Ev.query "CALC:MARK:FUNC:POW:RES? ACP",
       Ev.query ":CONF:DDPD:STAT OFF; *OPC?",
       Ev.query "CONF:GEN:CONT:STAT OFF; *OPC?",
       Ev.query "CONF:GEN:CONN:STAT OFF; *OPC?"], ?_, by decide, by decide⟩
    rw [htr]
    simp [iter_mid_eq, iter_preAclr_eq, iter_post_eq, (iter_cmds_eq n).1,
      (iter_cmds_eq n).2.1, (iter_cmds_eq n).2.2, expandActs, actEvs]
  · refine ⟨l1 ++ servoEvs (resolveServoFlag psa dflts.usePowerServo && hasReg)
        (resolveServoFlag k18a dflts.useK18PowerServo) target maxIter ++
      [Ev.query "INST:SEL \"5G NR\"; *OPC?",
       Ev.query "CONF:NR5G:MEAS EVM; *OPC?", Ev.query "INIT:IMM; *OPC?",
       Ev.query "INIT:IMM; *OPC?",
       Ev.query "FETC:CC1:ISRC:FRAM:SUMM:POW:AVERage?",
       Ev.query "FETC:CC1:ISRC:FRAM:SUMM:EVM:ALL:AVERage?"],
      Ev.query "CONF:NR5G:MEAS ACLR; *OPC?",
      [Ev.query "INIT:IMM;*OPC?", Ev.query "CALC:MARK:FUNC:POW:RES? ACP",
       Ev.query ":CONF:DDPD:STAT OFF; *OPC?",
       Ev.query "CONF:GEN:CONT:STAT OFF; *OPC?",
       Ev.query "CONF:GEN:CONN:STAT OFF; *OPC?"], ?_, by decide, by decide⟩
    rw [htr]
    simp [iter_mid_eq, iter_preAclr_eq, iter_post_eq, (iter_cmds_eq n).1,
      (iter_cmds_eq n).2.1, (iter_cmds_eq n).2.2, expandActs, actEvs]

theorem lastCmds_gmp : ∀ (env : Env) (fuel n : Nat) (hasReg : Bool)
    (target : ℚ) (maxIter : Nat) (dflts : ServoDefaults)
    (psa k18a : Option Bool) (r : PhaseResult),
    (perform_gmp_dpd fuel n hasReg target maxIter dflts psa k18a env []).1 =
      Except.ok r →
    LastEv isCtxSel selsNR
      (perform_gmp_dpd fuel n hasReg target maxIter dflts psa k18a env []).2 ∧
    LastEv isMeasSet setsEVM
      (perform_gmp_dpd fuel n hasReg target maxIter dflts psa k18a env []).2 := by
  intro env fuel n hasReg target maxIter dflts psa k18a r h
  have hfull := pairOfFst h
  obtain ⟨l1, l2, l3, l4, ht1, ht2, ht3, ht4, htr, -, -⟩ := runPhase_ok hfull
  have hl2 : l2 = expandActs (gmpDpdScript n).mid :=
    actsTrace_noOpc_eq ht2
      (by intro c hc; rw [gmp_mid_eq n] at hc; simp at hc)
  have hl3 : l3 = expandActs (gmpDpdScript n).preAclr :=
    actsTrace_noOpc_eq ht3
      (by intro c hc; rw [gmp_preAclr_eq n] at hc; simp at hc)
  have hl4 : l4 = expandActs (gmpDpdScript n).post :=
    actsTrace_noOpc_eq ht4
      (by intro c hc; rw [gmp_post_eq n] at hc; simp at hc)
  rw [hl2, hl3, hl4] at htr
  constructor
  · refine ⟨l1 ++ servoEvs (resolveServoFlag psa dflts.usePowerServo && hasReg)
        (resolveServoFlag k18a dflts.useK18PowerServo) target maxIter ++
      [Ev.query "INST:SEL \"5G NR\"; *OPC?",
       Ev.query "CONF:NR5G:MEAS EVM; *OPC?", Ev.query "INIT:IMM; *OPC?",
       Ev.query "FETC:CC1:ISRC:FRAM:SUMM:POW:AVERage?",
       Ev.query "FETC:CC1:ISRC:FRAM:SUMM:EVM:ALL:AVERage?",
       Ev.write "CONF:NR5G:MEAS ACLR", Ev.write "INIT:IMM;*WAI",
       Ev.query "CALC:MARK:FUNC:POW:RES? ACP",
       Ev.query ":INST:SEL \"Amplifier\"; *OPC?",
       Ev.query ":CONF:MDPD:WAV:SEL REF; *OPC?",
       Ev.query ":CONF:DDPD:APPL:STAT OFF; *OPC?"],
      Ev.query ":INST:SEL \"5G NR\"; *OPC?",
      [Ev.query ":CONF:NR5G:MEAS EVM; *OPC?",
       Ev.query ":CONF:NR5G:DL:CC1:RFUC:STAT OFF; *OPC?",
       Ev.query "CONF:GEN:CONT:STAT OFF; *OPC?",
       Ev.query "CONF:GEN:CONN:STAT OFF; *OPC?"], ?_, by decide, by decide⟩
    rw [htr]
    simp [gmp_mid_eq, gmp_preAclr_eq, gmp_post_eq, (gmp_cmds_eq n).1,
      (gmp_cmds_eq n).2.1, (gmp_cmds_eq n).2.2, expandActs, actEvs]
  · refine ⟨l1 ++ servoEvs (resolveServoFlag psa dflts.usePowerServo && hasReg)
        (resolveServoFlag k18a dflts.useK18PowerServo) target maxIter ++
      [Ev.query "INST:SEL \"5G NR\"; *OPC?",
       Ev.query "CONF:NR5G:MEAS EVM; *OPC?", Ev.query "INIT:IMM; *OPC?",
       Ev.query "FETC:CC1:ISRC:FRAM:SUMM:POW:AVERage?",
       Ev.query "FETC:CC1:ISRC:FRAM:SUMM:EVM:ALL:AVERage?",
       Ev.write "CONF:NR5G:MEAS ACLR", Ev.write "INIT:IMM;*WAI",
       Ev.query "CALC:MARK:FUNC:POW:RES? ACP",
       Ev.query ":INST:SEL \"Amplifier\"; *OPC?",
       Ev.query ":CONF:MDPD:WAV:SEL REF; *OPC?",
       Ev.query ":CONF:DDPD:APPL:STAT OFF; *OPC?",
       Ev.query ":INST:SEL \"5G NR\"; *OPC?"],
      Ev.query ":CONF:NR5G:MEAS EVM; *OPC?",
      [Ev.query ":CONF:NR5G:DL:CC1:RFUC:STAT OFF; *OPC?",
       Ev.query "CONF:GEN:CONT:STAT OFF; *OPC?",
       Ev.query "CONF:GEN:CONN:STAT OFF; *OPC?"], ?_, by decide, by decide⟩
    rw [htr]
    simp [gmp_mid_eq, gmp_preAclr_eq, gmp_post_eq, (gmp_cmds_eq n).1,
      (gmp_cmds_eq n).2.1, (gmp_cmds_eq n).2.2, expandActs, actEvs]

/-- C1 (amended): every phase that completes successfully leaves the 5G NR
measurement context as the last selected instrument context; the baseline
and GMP phases also restore EVM as the last-set measurement type, but the
single-DPD and iterative-DPD phases end with ACLR as the last-set
measurement type (they never switch the measurement type back to EVM after
the ACLR capture). -/
theorem phases_restore_home_state : ∀ (env : Env) (fuel n : Nat)
    (hasReg : Bool) (target : ℚ) (maxIter : Nat) (dflts : ServoDefaults)
    (psa k18a : Option Bool),
    (∀ r, (measure_evm fuel hasReg target maxIter dflts psa k18a env []).1 =
        Except.ok r →
      LastEv isCtxSel selsNR
        (measure_evm fuel hasReg target maxIter dflts psa k18a env []).2 ∧
      LastEv isMeasSet setsEVM
        (measure_evm fuel hasReg target maxIter dflts psa k18a env []).2) ∧
    (∀ r, (perform_single_dpd fuel hasReg target maxIter dflts psa k18a
        env []).1 = Except.ok r →
      LastEv isCtxSel selsNR
        (perform_single_dpd fuel hasReg target maxIter dflts psa k18a
          env []).2 ∧
      LastEv isMeasSet setsACLR
        (perform_single_dpd fuel hasReg target maxIter dflts psa k18a
          env []).2) ∧
    (∀ r, (perform_iterative_dpd fuel n hasReg target maxIter dflts psa k18a
        env []).1 = Except.ok r →
      LastEv isCtxSel selsNR
        (perform_iterative_dpd fuel n hasReg target maxIter dflts psa k18a
          env []).2 ∧
      LastEv isMeasSet setsACLR
        (perform_iterative_dpd fuel n hasReg target maxIter dflts psa k18a
          env []).2) ∧
    (∀ r, (perform_gmp_dpd fuel n hasReg target maxIter dflts psa k18a
        env []).1 = Except.ok r →
      LastEv isCtxSel selsNR
        (perform_gmp_dpd fuel n hasReg target maxIter dflts psa k18a
          env []).2 ∧
      LastEv isMeasSet setsEVM
        (perform_gmp_dpd fuel n hasReg target maxIter dflts psa k18a
          env []).2) :=
  fun env fuel n hasReg target maxIter dflts psa k18a =>
    ⟨fun r h => lastCmds_baseline env fuel hasReg target maxIter dflts psa
        k18a r h,
     fun r h => lastCmds_single env fuel hasReg target maxIter dflts psa
        k18a r h,
     fun r h => lastCmds_iter env fuel n hasReg target maxIter dflts psa
        k18a r h,
     fun r h => lastCmds_gmp env fuel n hasReg target maxIter dflts psa
        k18a r h⟩

/-- Witness for C1 (amended) on the canned stub, baseline phase. -/
theorem phases_restore_home_state_witness :
    LastEv isCtxSel selsNR
      (measure_evm 1 false 0 10 ⟨true, true⟩ (some false) (some false)
        roundtripEnv []).2 ∧
    LastEv isMeasSet setsEVM
      (measure_evm 1 false 0 10 ⟨true, true⟩ (some false) (some false)
        roundtripEnv []).2 :=
  (phases_restore_home_state roundtripEnv 1 5 false 0 10 ⟨true, true⟩
    (some false) (some false)).1
    ⟨PFloat.val 10, PFloat.val (Rat.divInt 123 100), -5, -45, -46, 0, 0, 0⟩
    (by decide)

/-- Counterexample to C1 as stated: `perform_single_dpd` completes
successfully on the canned stub, but the last measurement-type command of
its trace selects ACLR, not EVM — the phase does not restore EVM as the
active measurement type. -/
theorem single_dpd_leaves_aclr :
    (perform_single_dpd 1 false 0 10 ⟨true, true⟩ (some false) (some false)
      roundtripEnv []).1 =
      Except.ok ⟨PFloat.val 10, PFloat.val (Rat.divInt 123 100), -5, -45, -46,
        0, 0, 0⟩ ∧
    lastSatB isMeasSet setsEVM
      ((perform_single_dpd 1 false 0 10 ⟨true, true⟩ (some false) (some false)
        roundtripEnv []).2) = false ∧
    lastSatB isMeasSet setsACLR
      ((perform_single_dpd 1 false 0 10 ⟨true, true⟩ (some false) (some false)
        roundtripEnv []).2) = true ∧
    ¬ LastEv isMeasSet setsEVM
      ((perform_single_dpd 1 false 0 10 ⟨true, true⟩ (some false) (some false)
        roundtripEnv []).2) := by
  refine ⟨by decide, by decide, by decide, ?_⟩
  intro hLE
  exact absurd (lastEv_bridge setsEVM_isMeasSet hLE) (by decide)

/-!  Claim C5: command ordering inside `perform_single_dpd`. -/

/-- C5 (amended): in a successful `perform_single_dpd` run, the Amplifier
context selection is issued before the polynomial-DPD mode command and no NR
selection precedes it; the NR context selection is issued before the EVM
measurement query; and when the external servo is enabled its regulate call
happens BEFORE the switch back to the NR context (with no NR selection
preceding the servo call), not after it. -/
theorem single_dpd_order : ∀ (env : Env) (fuel : Nat) (hasReg : Bool)
    (target : ℚ) (maxIter : Nat) (dflts : ServoDefaults)
    (psa k18a : Option Bool) (r : PhaseResult),
    (perform_single_dpd fuel hasReg target maxIter dflts psa k18a env []).1 =
      Except.ok r →
    (∃ x y, (perform_single_dpd fuel hasReg target maxIter dflts psa k18a
        env []).2 = x ++ Ev.query "CONF:DPD:SHAP:MODE POLY; *OPC?" :: y ∧
      Ev.write ("INST:SEL \"Amplifier\"" ++ ";*OPC") ∈ x ∧
      (∀ f ∈ x, selsNR f = false)) ∧
    (∃ x y, (perform_single_dpd fuel hasReg target maxIter dflts psa k18a
        env []).2 =
        x ++ Ev.query "FETC:CC1:ISRC:FRAM:SUMM:POW:AVERage?" :: y ∧
      (∃ e ∈ x, selsNR e = true)) ∧
    ((resolveServoFlag psa dflts.usePowerServo && hasReg) = true →
      ∃ x y, (perform_single_dpd fuel hasReg target maxIter dflts psa k18a
          env []).2 = x ++ Ev.regulateCall :: y ∧
        (∀ f ∈ x, selsNR f = false) ∧ (∃ e ∈ y, selsNR e = true)) := by
  intro env fuel hasReg target maxIter dflts psa k18a r h
  have hfull := pairOfFst h
  obtain ⟨l1, l2, l3, l4, ht1, ht2, ht3, ht4, htr, -, -⟩ := runPhase_ok hfull
  have hl2 : l2 = expandActs singleDpdScript.mid :=
    actsTrace_noOpc_eq ht2 (by intro c hc; simp [singleDpdScript] at hc)
  have hl3 : l3 = expandActs singleDpdScript.preAclr :=
    actsTrace_noOpc_eq ht3 (by intro c hc; simp [singleDpdScript] at hc)
  rw [hl2, hl3] at htr
  cases ht1 with
  | cons ha1 h1b =>
  cases ha1 with
  | opc c1 lesr hesr =>
  have hls : _ = expandActs
      [Act.q "CONF:GEN:CONN:STAT ON; *OPC?",
       Act.q "CONF:GEN:CONT:STAT ON; *OPC?",
       Act.q "CONF:SETT; *OPC?",
       Act.q ":CONF:REFS:CGW:READ; *OPC?",
       Act.q "INIT:CONT OFF; *OPC?",
       Act.q "INIT:IMM; *OPC?",
       Act.q "CONF:DDPD:STAT OFF; *OPC?",
       Act.q "CONF:DPD:SHAP:MODE POLY; *OPC?",
       Act.q ":CONF:DPD:TRAD 10; *OPC?",
       Act.q "INIT:IMM; *OPC?",
       Act.q ":CONF:DPD:FILE:GEN; *OPC?",
       Act.q ":CONF:DPD:UPD; *OPC?",
       Act.q "CONF:DPD:AMAM:STAT ON; *OPC?",
       Act.q "CONF:DPD:AMPM:STAT ON; *OPC?",
       Act.q "INIT:IMM; *OPC?"] :=
    actsTrace_noOpc_eq h1b (by intro c hc; simp at hc)
  rw [hls] at htr
  refine ⟨?_, ?_, ?_⟩
  · refine ⟨([Ev.write "*ESE 1", Ev.write "*SRE 32",
        Ev.write ("INST:SEL \"Amplifier\"" ++ ";*OPC")] ++ lesr) ++
      [Ev.query "CONF:GEN:CONN:STAT ON; *OPC?",
       Ev.query "CONF:GEN:CONT:STAT ON; *OPC?",
       Ev.query "CONF:SETT; *OPC?",
       Ev.query ":CONF:REFS:CGW:READ; *OPC?",
       Ev.query "INIT:CONT OFF; *OPC?",
       Ev.query "INIT:IMM; *OPC?",
       Ev.query "CONF:DDPD:STAT OFF; *OPC?"],
      [Ev.query ":CONF:DPD:TRAD 10; *OPC?",
       Ev.query "INIT:IMM; *OPC?",
       Ev.query ":CONF:DPD:FILE:GEN; *OPC?",
       Ev.query ":CONF:DPD:UPD; *OPC?",
       Ev.query "CONF:DPD:AMAM:STAT ON; *OPC?",
       Ev.query "CONF:DPD:AMPM:STAT ON; *OPC?",
       Ev.query "INIT:IMM; *OPC?"] ++
      servoEvs (resolveServoFlag psa dflts.usePowerServo && hasReg)
        (resolveServoFlag k18a dflts.useK18PowerServo) target maxIter ++
      expandActs singleDpdScript.mid ++
      [Ev.query "FETC:CC1:ISRC:FRAM:SUMM:POW:AVERage?",
       Ev.query "FETC:CC1:ISRC:FRAM:SUMM:EVM:ALL:AVERage?"] ++
      expandActs singleDpdScript.preAclr ++
      [Ev.query "CALC:MARK:FUNC:POW:RES? ACP"] ++ l4, ?_, ?_, ?_⟩
    · rw [htr]
      simp [singleDpdScript, expandActs, actEvs]
    · simp
    · exact noP_append
        (noP_append (by decide) (noP_onlyEsr (by decide) (by decide) hesr))
        (by decide)
  · refine ⟨(([Ev.write "*ESE 1", Ev.write "*SRE 32",
        Ev.write ("INST:SEL \"Amplifier\"" ++ ";*OPC")] ++ lesr) ++
      expandActs
        [Act.q "CONF:GEN:CONN:STAT ON; *OPC?",
         Act.q "CONF:GEN:CONT:STAT ON; *OPC?",
         Act.q "CONF:SETT; *OPC?",
         Act.q ":CONF:REFS:CGW:READ; *OPC?",
         Act.q "INIT:CONT OFF; *OPC?",
         Act.q "INIT:IMM; *OPC?",
         Act.q "CONF:DDPD:STAT OFF; *OPC?",
         Act.q "CONF:DPD:SHAP:MODE POLY; *OPC?",
         Act.q ":CONF:DPD:TRAD 10; *OPC?",
         Act.q "INIT:IMM; *OPC?",
         Act.q ":CONF:DPD:FILE:GEN; *OPC?",
         Act.q ":CONF:DPD:UPD; *OPC?",
         Act.q "CONF:DPD:AMAM:STAT ON; *OPC?",
         Act.q "CONF:DPD:AMPM:STAT ON; *OPC?",
         Act.q "INIT:IMM; *OPC?"] ++
      servoEvs (resolveServoFlag psa dflts.usePowerServo && hasReg)
        (resolveServoFlag k18a dflts.useK18PowerServo) target maxIter) ++
      expandActs singleDpdScript.mid,
      [Ev.query "FETC:CC1:ISRC:FRAM:SUMM:EVM:ALL:AVERage?"] ++
      expandActs singleDpdScript.preAclr ++
      [Ev.query "CALC:MARK:FUNC:POW:RES? ACP"] ++ l4, ?_,
      Ev.query "INST:SEL \"5G NR\"; *OPC?",
      List.mem_append_right _ (by decide), by decide⟩
    rw [htr]
    simp [singleDpdScript, expandActs, actEvs]
  · intro hePS
    rw [hePS] at htr
    refine ⟨([Ev.write "*ESE 1", Ev.write "*SRE 32",
        Ev.write ("INST:SEL \"Amplifier\"" ++ ";*OPC")] ++ lesr) ++
      expandActs
        [Act.q "CONF:GEN:CONN:STAT ON; *OPC?",
         Act.q "CONF:GEN:CONT:STAT ON; *OPC?",
         Act.q "CONF:SETT; *OPC?",
         Act.q ":CONF:REFS:CGW:READ; *OPC?",
         Act.q "INIT:CONT OFF; *OPC?",
         Act.q "INIT:IMM; *OPC?",
         Act.q "CONF:DDPD:STAT OFF; *OPC?",
         Act.q "CONF:DPD:SHAP:MODE POLY; *OPC?",
         Act.q ":CONF:DPD:TRAD 10; *OPC?",
         Act.q "INIT:IMM; *OPC?",
         Act.q ":CONF:DPD:FILE:GEN; *OPC?",
         Act.q ":CONF:DPD:UPD; *OPC?",
         Act.q "CONF:DPD:AMAM:STAT ON; *OPC?",
         Act.q "CONF:DPD:AMPM:STAT ON; *OPC?",
         Act.q "INIT:IMM; *OPC?"],
      (if resolveServoFlag k18a dflts.useK18PowerServo then
        expandActs (k18Acts target maxIter) else []) ++
      (expandActs singleDpdScript.mid ++
       ([Ev.query "FETC:CC1:ISRC:FRAM:SUMM:POW:AVERage?",
         Ev.query "FETC:CC1:ISRC:FRAM:SUMM:EVM:ALL:AVERage?"] ++
        (expandActs singleDpdScript.preAclr ++
         ([Ev.query "CALC:MARK:FUNC:POW:RES? ACP"] ++ l4)))), ?_, ?_, ?_⟩
    · rw [htr]
      simp [singleDpdScript, expandActs, actEvs, servoEvs]
    · exact noP_append
        (noP_append (by decide) (noP_onlyEsr (by decide) (by decide) hesr))
        (by decide)
    · exact ⟨Ev.query "INST:SEL \"5G NR\"; *OPC?",
        List.mem_append_right _ (List.mem_append_left _ (by decide)),
        by decide⟩

/-- Stub for the external-servo-only scenario (3 iterations). -/
def extServoEnv : Env :=
  cannedEnv "10.0" "1.23" "-5.0,-45.0,-46.0" 3 (Rat.divInt 1 2)
    (Rat.divInt 7 10) (Rat.divInt 9 10)

/-- Counterexample to C5 as stated: on a successful `perform_single_dpd`
run with the external servo enabled, the servo's regulate call is issued
while NO switch back to the NR context has yet happened — the claim that
the NR context selection precedes any servo invocation is false. -/
theorem single_dpd_servo_before_nr :
    (perform_single_dpd 1 true 0 10 ⟨true, true⟩ (some true) (some false)
      extServoEnv []).1 =
      Except.ok ⟨PFloat.val 10, PFloat.val (Rat.divInt 123 100), -5, -45, -46,
        3, Rat.divInt 7 10, 0⟩ ∧
    Ev.regulateCall ∈
      (perform_single_dpd 1 true 0 10 ⟨true, true⟩ (some true) (some false)
        extServoEnv []).2 ∧
    Ev.query "INST:SEL \"5G NR\"; *OPC?" ∈
      (perform_single_dpd 1 true 0 10 ⟨true, true⟩ (some true) (some false)
        extServoEnv []).2 ∧
    ¬ (∃ x y, (perform_single_dpd 1 true 0 10 ⟨true, true⟩ (some true)
        (some false) extServoEnv []).2 = x ++ Ev.regulateCall :: y ∧
      Ev.regulateCall ∉ x ∧ ∃ e ∈ x, selsNR e = true) := by
  refine ⟨by decide, by decide, by decide, ?_⟩
  rintro ⟨x, y, hsplit, hnx, e, hex, hnr⟩
  have hx : ∀ f ∈ x, (fun f => !(f == Ev.regulateCall)) f = true := by
    intro f hf
    simp only [Bool.not_eq_true]
    cases hb : f == Ev.regulateCall
    · rfl
    · rw [beq_iff_eq] at hb
      exact absurd (hb ▸ hf) hnx
  have he : (fun f => !(f == Ev.regulateCall)) Ev.regulateCall = false := by
    decide
  have hxx := takeWhile_split (y := y) hx he
  rw [← hsplit] at hxx
  have hmem : e ∈ List.takeWhile (fun f => !(f == Ev.regulateCall))
      (perform_single_dpd 1 true 0 10 ⟨true, true⟩ (some true) (some false)
        extServoEnv []).2 := hxx ▸ hex
  have hfalse : ∀ f ∈ List.takeWhile (fun f => !(f == Ev.regulateCall))
      (perform_single_dpd 1 true 0 10 ⟨true, true⟩ (some true) (some false)
        extServoEnv []).2, selsNR f = false := by decide
  rw [hfalse e hmem] at hnr
  cases hnr

/-- Witness for C5 (amended): the ordering facts at the external-servo
scenario. -/
theorem single_dpd_order_witness :
    (∃ x y, (perform_single_dpd 1 true 0 10 ⟨true, true⟩ (some true)
        (some false) extServoEnv []).2 =
        x ++ Ev.query "CONF:DPD:SHAP:MODE POLY; *OPC?" :: y ∧
      Ev.write ("INST:SEL \"Amplifier\"" ++ ";*OPC") ∈ x ∧
      (∀ f ∈ x, selsNR f = false)) ∧
    (∃ x y, (perform_single_dpd 1 true 0 10 ⟨true, true⟩ (some true)
        (some false) extServoEnv []).2 =
        x ++ Ev.query "FETC:CC1:ISRC:FRAM:SUMM:POW:AVERage?" :: y ∧
      (∃ e ∈ x, selsNR e = true)) ∧
    (∃ x y, (perform_single_dpd 1 true 0 10 ⟨true, true⟩ (some true)
        (some false) extServoEnv []).2 = x ++ Ev.regulateCall :: y ∧
      (∀ f ∈ x, selsNR f = false) ∧ (∃ e ∈ y, selsNR e = true)) := by
  have h := single_dpd_order extServoEnv 1 true 0 10 ⟨true, true⟩ (some true)
    (some false)
    ⟨PFloat.val 10, PFloat.val (Rat.divInt 123 100), -5, -45, -46, 3,
      Rat.divInt 7 10, 0⟩
    (by decide)
  exact ⟨h.1, h.2.1, h.2.2 (by decide)⟩
